import Mathlib

/-!
# Edge diagnostics adapter: native addon (`src/native/Addon/EdgeFunctions.cpp`)

A shallow embedding of the addon's six exported methods and their helpers.

* Narrow strings (`char*`, `CStringA`, the bytes of a `String::Utf8Value`) are lists of
  byte values; wide strings (`CString`, `BSTR`, `L"..."`) are lists of UTF-16 code units.
* The module's globals are the record `Globals`; every method takes the globals, the
  observable behaviour of the operating system during the call (`Env`) and the JavaScript
  argument list, and returns the new globals, the value left in `info.GetReturnValue()`
  and the list of effects it performed, in program order. The effect `fault` is the end
  of the process in a member call through an empty handle; nothing follows it.
* Machine integers are naturals or integers with explicit wrap-around where a cast or an
  overflow can change the value.
-/

namespace EdgeAdapter

/-! ## Text -/

/-- A narrow string: byte values. -/
abbrev AString := List Nat

/-- A wide string: UTF-16 code units. -/
abbrev WString := List Nat

/-- The code units of a source literal (all literals of the addon are ASCII, so the same
list serves a narrow and a wide literal). -/
def lit (s : String) : List Nat := s.toList.map Char.toNat

/-- The C view of a buffer: the characters before the first NUL. -/
def cstr : List Nat → List Nat
  | [] => []
  | c :: cs => if c = 0 then [] else c :: cstr cs

/-- The UTF-8 bytes of one code point. -/
def utf8Bytes (c : Nat) : AString :=
  if c < 0x80 then [c]
  else if c < 0x800 then [0xC0 + c / 64, 0x80 + c % 64]
  else if c < 0x10000 then [0xE0 + c / 4096, 0x80 + c / 64 % 64, 0x80 + c % 64]
  else [0xF0 + c / 262144, 0x80 + c / 4096 % 64, 0x80 + c / 64 % 64, 0x80 + c % 64]

/-- The bytes `String::Utf8Value` exposes for a JavaScript string given by its UTF-16
code units: the UTF-8 encoding, a surrogate pair as one code point, a surrogate without
partner as the three bytes of its own value, a NUL as a zero byte. -/
def utf8Value : WString → AString
  | [] => []
  | [u] => utf8Bytes u
  | hi :: lo :: rest =>
    if 0xD800 ≤ hi ∧ hi < 0xDC00 ∧ 0xDC00 ≤ lo ∧ lo < 0xE000 then
      utf8Bytes (0x10000 + (hi - 0xD800) * 1024 + (lo - 0xDC00)) ++ utf8Value rest
    else utf8Bytes hi ++ utf8Value (lo :: rest)

/-! ## Handles and their textual ids -/

/-- One hexadecimal digit character: upper case as `printf("%p")` of the Microsoft CRT
prints it, lower case as `%x` does. -/
def hexDigit (upper : Bool) (d : Nat) : Nat :=
  if d < 10 then 48 + d else if upper then 55 + d else 87 + d

/-- The last `n` hexadecimal digits of `v`, most significant first. -/
def hexFixed (upper : Bool) : Nat → Nat → List Nat
  | 0, _ => []
  | n + 1, v => hexFixed upper n (v / 16) ++ [hexDigit upper (v % 16)]

/-- The rendering `Format("%p", hwnd)`: the Microsoft CRT prints a pointer as
`2 * sizeof(void*)` upper-case hexadecimal digits, zero padded, without a `0x`;
`ptrBits` is the width of a pointer in bits. -/
def formatP (ptrBits : Nat) (hwnd : Nat) : AString := hexFixed true (ptrBits / 4) hwnd

/-- Value of a hexadecimal digit character, either case. -/
def hexVal (c : Nat) : Option Nat :=
  if 48 ≤ c ∧ c ≤ 57 then some (c - 48)
  else if 65 ≤ c ∧ c ≤ 70 then some (c - 55)
  else if 97 ≤ c ∧ c ≤ 102 then some (c - 87)
  else none

/-- The digit loop of `strtol`: consume hexadecimal digits, stop at the first other
character (the terminating NUL included). -/
def accumHex : Nat → List Nat → Nat
  | acc, [] => acc
  | acc, c :: cs =>
    match hexVal c with
    | some d => accumHex (acc * 16 + d) cs
    | none => acc

/-- The C `isspace` in the "C" locale. -/
def isspace (c : Nat) : Bool := c = 32 || (9 ≤ c && c ≤ 13)

/-- Leading white space is skipped by `strtol`. -/
def skipSpace : List Nat → List Nat
  | [] => []
  | c :: cs => if isspace c then skipSpace cs else c :: cs

/-- An optional sign: `true` for a minus. -/
def takeSign : List Nat → Bool × List Nat
  | 45 :: cs => (true, cs)
  | 43 :: cs => (false, cs)
  | cs => (false, cs)

/-- In base 16 an optional `0x` or `0X` may precede the digits. -/
def skip0x : List Nat → List Nat
  | 48 :: 120 :: cs => cs
  | 48 :: 88 :: cs => cs
  | cs => cs

/-- The largest `long` of the Windows ABI (`long` has 32 bits on Win32 and Win64). -/
def LONG_MAX : Int := 2147483647

/-- The smallest `long` of the Windows ABI. -/
def LONG_MIN : Int := -2147483648

/-- The call `strtol(s, NULL, 16)`: white space, sign, optional `0x`, digits; a value
outside the range of `long` is replaced by `LONG_MAX` or `LONG_MIN`. -/
def strtol16 (s : AString) : Int :=
  let signed := takeSign (skipSpace s)
  let v : Int := (accumHex 0 (skip0x signed.2) : Nat)
  if signed.1 then (if -v < LONG_MIN then LONG_MIN else -v)
  else (if LONG_MAX < v then LONG_MAX else v)

/-- The cast `(HWND)` of a `long`: the value is sign extended to the pointer width and
read as an address. -/
def toHandle (ptrBits : Nat) (v : Int) : Nat := (v % (2 : Int) ^ ptrBits).toNat

/-- The decoder of `connectTo`, `injectScriptTo` and `forwardTo`:
`(HWND)::strtol(id, NULL, 16)`. -/
def decodeId (ptrBits : Nat) (id : AString) : Nat := toHandle ptrBits (strtol16 id)

/-! ## Result codes -/

/-- An `HRESULT`, as its 32-bit pattern. -/
abbrev HRESULT := Nat

/-- Success. -/
def S_OK : HRESULT := 0

/-- Success with a negative answer. -/
def S_FALSE : HRESULT := 1

/-- General access denied error. -/
def E_ACCESSDENIED : HRESULT := 0x80070005

/-- The value of `HRESULT_FROM_WIN32(ERROR_MOD_NOT_FOUND)` (Win32 error 126). -/
def HRESULT_MOD_NOT_FOUND : HRESULT := 0x8007007E

/-- A parameter of a strsafe function is invalid. -/
def STRSAFE_E_INVALID_PARAMETER : HRESULT := 0x80070057

/-- The destination of a strsafe copy was too small; the copy was truncated. -/
def STRSAFE_E_INSUFFICIENT_BUFFER : HRESULT := 0x8007007A

/-- The largest character count a strsafe function accepts. -/
def STRSAFE_MAX_CCH : Nat := 2147483647

/-- The Win32 success code of the ACL functions. -/
def ERROR_SUCCESS : Nat := 0

/-! ## The world outside the addon -/

/-- A JavaScript argument as the addon can tell it apart: a string (given by the bytes
that `String::Utf8Value` exposes, its UTF-8 encoding, a NUL of the text included as a
zero byte), a function, or anything else. -/
inductive JsValue where
  | string (utf8 : AString)
  | function (handle : Nat)
  | other
deriving DecidableEq, Repr

/-- The process an `IsWow64Process` query is about. -/
inductive ProcessRef where
  | currentProcess
  | windowOwner (hwnd : Nat)
deriving DecidableEq, Repr

/-- A window met by the enumeration, with what the OS answers about it. -/
structure Window where
  /-- The window handle. -/
  hwnd : Nat
  /-- The window class name. -/
  className : WString
  /-- Whether `OpenProcess` on the owning process gave a handle. -/
  openProcess : Bool
  /-- The text `GetModuleFileNameEx` stored, cut to the length it returned (empty when it
  failed). -/
  moduleFileName : WString
deriving DecidableEq, Repr

/-- The answers of an `IHTMLDocument2`. -/
structure Document where
  /-- The call `get_URL`: result code and text. -/
  url : HRESULT × WString
  /-- The call `get_title`: result code and text. -/
  title : HRESULT × WString
deriving DecidableEq, Repr

/-- The platform and the behaviour of the operating system during one call of an addon
method. Declarations of the headers that are not part of the translated file
(`CopyDataPayload_StringMessage_Data`, `StringMessage_Signature`) are fields too. -/
structure Env where
  /-- Width of a pointer and of `size_t`, in bits. -/
  ptrBits : Nat
  /-- The value of `sizeof(CopyDataPayload_StringMessage_Data)`. -/
  sizeofStringMessageData : Nat
  /-- The value of `CopyDataPayload_ProcSignature::StringMessage_Signature`. -/
  stringMessageSignature : Nat
  /-- Content of a fresh `new BYTE[...]` block, byte by byte. -/
  freshByte : Nat → Nat
  /-- What `MultiByteToWideChar` makes, under the active ANSI code page, of a narrow C
  string that has a byte outside ASCII. -/
  acpToWide : AString → WString
  /-- What `WideCharToMultiByte` makes, under the active ANSI code page, of a wide string
  that has a code unit outside ASCII. -/
  acpToAnsi : WString → AString
  /-- The text `_com_error::ErrorMessage` gives for a result code. -/
  errorMessage : HRESULT → WString
  /-- Result of `CoInitializeEx`. -/
  coInitializeEx : HRESULT
  /-- For every top-level window, in enumeration order, its descendants in enumeration
  order. -/
  topLevelWindows : List (List Window)
  /-- Result code of `Helpers::GetDocumentFromHwnd` for a handle. -/
  getDocumentFromHwnd : Nat → HRESULT
  /-- The document `Helpers::GetDocumentFromHwnd` gives for a handle. -/
  document : Nat → Document
  /-- Whether `GetNativeSystemInfo` reports `PROCESSOR_ARCHITECTURE_AMD64`. -/
  nativeArchitectureIsAmd64 : Bool
  /-- The flag `IsWow64Process` stores for a process. -/
  isWow64Process : ProcessRef → Bool
  /-- Result of `IsWindows8Point1OrGreater`. -/
  isWindows8Point1OrGreater : Bool
  /-- Result code of `Helpers::StartDiagnosticsMode` for the document of a handle and a
  module path. -/
  startDiagnosticsMode : Nat → WString → HRESULT
  /-- The call `spSite->GetWindow(&hwnd)`: result code and the value the local `hwnd` holds
  after the call. -/
  getWindow : HRESULT × Nat
  /-- The member `m_hWnd` of a freshly constructed `MessageReceiver`. -/
  receiverHwnd : Nat
  /-- Result of `ConvertStringSidToSid`. -/
  convertStringSidToSid : Bool
  /-- Result of `SetEntriesInAcl`. -/
  setEntriesInAcl : Nat
  /-- Result of `SetNamedSecurityInfo`. -/
  setNamedSecurityInfo : Nat
  /-- Result of `GetLastError`. -/
  getLastError : Nat
  /-- The C string a read finds at the given distance behind the terminating NUL of the
  literal `"ERROR: Win32 error code: "` in the image of the addon. -/
  beyondLiteral : Nat → AString

/-- Whether a text has ASCII characters only. -/
def isAscii (s : List Nat) : Bool := s.all (fun c => decide (c < 128))

/-- The constructor `CString(const char*)`: conversion of a narrow C string to a wide
string under the active ANSI code page. Every Windows ANSI code page agrees with ASCII
below 128, so a text of ASCII characters keeps its values; any other text is converted as
the code page decides. -/
def Env.toWide (env : Env) (s : AString) : WString :=
  if isAscii s then s else env.acpToWide s

/-- The constructor `CStringA(CString)`: conversion of a wide string to a narrow one under
the active ANSI code page; a text of ASCII characters keeps its values. -/
def Env.toAnsi (env : Env) (s : WString) : AString :=
  if isAscii s then s else env.acpToAnsi s

/-! ## Globals, return values, effects -/

/-- The globals of the module. -/
structure Globals where
  /-- The flag `isInitialized`. -/
  isInitialized : Bool
  /-- The flag `isMessageReceiverCreated`. -/
  isMessageReceiverCreated : Bool
  /-- The persistent handle `messageCallbackHandle` (empty until reset). -/
  messageCallbackHandle : Option Nat
  /-- The persistent handle `logCallbackHandle` (empty until reset). -/
  logCallbackHandle : Option Nat
  /-- The string `m_rootPath`. -/
  m_rootPath : WString
  /-- The handle `m_proxyHwnd`. -/
  m_proxyHwnd : Nat
deriving DecidableEq, Repr

/-- The globals when the module is loaded. -/
def initialGlobals : Globals :=
  { isInitialized := false, isMessageReceiverCreated := false,
    messageCallbackHandle := none, logCallbackHandle := none,
    m_rootPath := [], m_proxyHwnd := 0 }

/-- One element of the array `getEdgeInstances` returns. -/
structure Instance where
  /-- The property `id`. -/
  id : AString
  /-- The property `url`. -/
  url : AString
  /-- The property `title`. -/
  title : AString
  /-- The property `processName`. -/
  processName : AString
deriving DecidableEq, Repr

/-- The value left in `info.GetReturnValue()`. -/
inductive RetVal where
  | undefined
  | null
  | boolean (b : Bool)
  | string (s : AString)
  | instances (l : List Instance)
deriving DecidableEq, Repr

/-- The structure `COPYDATASTRUCT` together with the block `lpData` points to. -/
structure CopyData where
  /-- The member `dwData`. -/
  dwData : Nat
  /-- The member `cbData`. -/
  cbData : Nat
  /-- The bytes of the block at `lpData`. -/
  lpData : List Nat
deriving DecidableEq, Repr

/-- What a method does to the outside, in program order. -/
inductive Effect where
  | throwTypeError (msg : String)
  | log (callback : Option Nat) (msg : AString)
  | coInitializeEx
  | enumWindows
  | getDocumentFromHwnd (hwnd : Nat)
  | startDiagnosticsMode (hwnd : Nat) (path : WString)
  | getWindow
  | newMessageReceiver (callback : Option Nat) (peer : Nat)
  | sendMessage (hwnd : Nat) (wParam : Nat) (data : CopyData)
  | getNamedSecurityInfo (path : WString)
  | setNamedSecurityInfo (path : WString)
  | fault
deriving DecidableEq, Repr

/-- Whether an effect ends the process: `Effect.fault` is the access violation of a
member call through an empty handle, after which nothing else is done. -/
def isFault : Effect → Bool
  | Effect.fault => true
  | _ => false

/-- Whether the effects end the process. -/
def faulted (effects : List Effect) : Bool := effects.any isFault

/-- Sequencing of two steps: the second is performed unless the first ended the
process. -/
def andThen (first next : List Effect) : List Effect :=
  if faulted first then first else first ++ next

/-- The result of one method call. -/
structure Outcome where
  /-- The globals after the call. -/
  globals : Globals
  /-- The value left in `info.GetReturnValue()`. -/
  ret : RetVal
  /-- The effects of the call. -/
  effects : List Effect
deriving DecidableEq, Repr

/-! ## Helpers of the addon -/

/-- The text thrown by `EnsureInitialized`. -/
def notInitializedError : String :=
  "Not initialized - you must call initialize(...) before using the adapter."

/-- The text thrown by a second call of the setup method. -/
def alreadyInitializedError : String :=
  "Already initialized - you cannot call initialize(...) more than once."

/-- The helper `EnsureInitialized`: throws the type error when the addon is not
initialized. Its `return` leaves the helper itself, so the calling method goes on in
either case; the helper contributes its effects and nothing else. -/
def EnsureInitialized (g : Globals) : List Effect :=
  if !g.isInitialized then [Effect.throwTypeError notInitializedError] else []

/-- The helper `Log`: calls the function held by `logCallbackHandle` with the text. While
the handle is empty, `Local<Function>::New` gives an empty `Local` and the member call
`->Call` through it ends the process: no callback is invoked. -/
def Log (g : Globals) (message : AString) : List Effect :=
  match g.logCallbackHandle with
  | some callback => [Effect.log (some callback) message]
  | none => [Effect.fault]

/-- The helper `EXIT_IF_NOT_S_OK`: for a code other than `S_OK` it logs
`ERROR: HRESULT 0x%08x : %s`. Its `return` leaves the helper itself, so the caller goes
on in either case. -/
def EXIT_IF_NOT_S_OK (g : Globals) (env : Env) (hr : HRESULT) : List Effect :=
  if hr ≠ S_OK then
    Log g (env.toAnsi
      (lit "ERROR: HRESULT 0x" ++ hexFixed false 8 hr ++ lit " : " ++ env.errorMessage hr))
  else []

/-- The length `wcslen` finds. -/
def wcslen (s : WString) : Nat := (cstr s).length

/-- The two bytes of a UTF-16 code unit in memory (little endian). -/
def wcharBytes (u : Nat) : List Nat := [u % 256, u / 256 % 256]

/-- The bytes of a wide string in memory. -/
def wideBytes : WString → List Nat
  | [] => []
  | u :: us => wcharBytes u ++ wideBytes us

/-- The four bytes of a `UINT` in memory (little endian). -/
def uintBytes (v : Nat) : List Nat :=
  [v % 256, v / 256 % 256, v / 65536 % 256, v / 16777216 % 256]

/-- The `UINT` four bytes hold. -/
def readUint : List Nat → Nat
  | [b0, b1, b2, b3] => b0 + 256 * b1 + 65536 * b2 + 16777216 * b3
  | _ => 0

/-- Store `bytes` into a block from offset `off` on. -/
def writeAt (buf : List Nat) (off : Nat) (bytes : List Nat) : List Nat :=
  buf.take off ++ bytes ++ buf.drop (off + bytes.length)

/-- The call `StringCbCopyEx(dest, cbDest, src, NULL, NULL, STRSAFE_IGNORE_NULLS)` of
strsafe.h: the result code and the characters stored at `dest`, if any. A destination of
no character or of more than `STRSAFE_MAX_CCH` characters is refused; otherwise as much
of the source as fits is stored, followed by a NUL. -/
def StringCbCopyEx (cbDest : Nat) (src : WString) : HRESULT × Option WString :=
  let cchDest := cbDest / 2
  if cchDest = 0 ∨ STRSAFE_MAX_CCH < cchDest then (STRSAFE_E_INVALID_PARAMETER, none)
  else if wcslen src < cchDest then (S_OK, some (cstr src ++ [0]))
  else (STRSAFE_E_INSUFFICIENT_BUFFER, some ((cstr src).take (cchDest - 1) ++ [0]))

/-- The frame `SendMessageToInstance` builds for a message: the `COPYDATASTRUCT` and the
result code of the string copy. -/
def buildFrame (env : Env) (message : WString) : CopyData × HRESULT :=
  let ucbParamsSize := env.sizeofStringMessageData
  let ucbStringSize := (2 * (wcslen message + 1)) % 2 ^ env.ptrBits
  let ucbBufferSize := (ucbParamsSize + ucbStringSize) % 2 ^ env.ptrBits
  let pBuffer := (List.range ucbBufferSize).map env.freshByte
  let cbData := ucbBufferSize % 2 ^ 32
  let uMessageOffset := ucbParamsSize % 2 ^ 32
  let withHeader := writeAt pBuffer 0 (uintBytes uMessageOffset)
  let copied := StringCbCopyEx ucbStringSize message
  let filled :=
    match copied.2 with
    | some text => writeAt withHeader uMessageOffset (wideBytes text)
    | none => withHeader
  ({ dwData := env.stringMessageSignature, cbData := cbData, lpData := filled }, copied.1)

/-- The helper `SendMessageToInstance`. -/
def SendMessageToInstance (g : Globals) (env : Env) (instanceHwnd : Nat)
    (message : WString) : List Effect :=
  let frame := buildFrame env message
  andThen (EXIT_IF_NOT_S_OK g env frame.2)
    [Effect.sendMessage instanceHwnd g.m_proxyHwnd frame.1]

/-! ## The setup method -/

/-- The method `initialize` of the addon. -/
def initializeCall (g : Globals) (env : Env) (info : List JsValue) : Outcome :=
  if g.isInitialized then
    { globals := g, ret := RetVal.undefined,
      effects := [Effect.throwTypeError alreadyInitializedError] }
  else
    match info with
    | JsValue.string path :: JsValue.function onMessage :: JsValue.function onLog :: _ =>
      let hr := env.coInitializeEx
      let ok : Bool := hr = S_OK || hr = S_FALSE
      { globals :=
          { g with
            m_rootPath := env.toWide (cstr path)
            messageCallbackHandle := some onMessage
            logCallbackHandle := some onLog
            m_proxyHwnd := 0
            isInitialized := ok }
        ret := RetVal.boolean ok
        effects := [Effect.coInitializeEx] }
    | _ =>
      { globals := g, ret := RetVal.undefined,
        effects := [Effect.throwTypeError
          "Incorrect arguments - initialize(rootPath: string, onEdgeMessage: (msg: string) => void, onLogMessage: (msg: string) => void): boolean"] }

/-! ## Discovery -/

/-- The search of `CString::Find`: index of the first occurrence of `pat` at or after
position `i` of the text whose remainder is the list, `-1` when there is none. -/
def findSub (pat : WString) : WString → Nat → Int
  | [], i => if pat.isEmpty then (i : Int) else -1
  | c :: cs, i => if pat.isPrefixOf (c :: cs) then (i : Int) else findSub pat cs (i + 1)

/-- The name of the content process image. -/
def edgeContentProcessName : WString := lit "MicrosoftEdgeCP.exe"

/-- The test of `getEdgeInstances` on the image path of the owning process:
`processName.Find(L"MicrosoftEdgeCP.exe") == processName.GetLength() - 19`. -/
def isEdgeContentProcessPath (processName : WString) : Bool :=
  findSub edgeContentProcessName processName 0 == (processName.length : Int) - 19

/-- The helper `Helpers::IsWindowClass`. -/
def IsWindowClass (w : Window) (name : WString) : Bool := w.className == name

/-- The scan of `PathFindFileNameW`: the text after the last separator that is followed
by a character other than a separator. -/
def pathFindFileNameFrom : WString → WString → WString
  | best, [] => best
  | best, c :: cs =>
    let next :=
      if c = 92 ∨ c = 47 ∨ c = 58 then
        match cs with
        | d :: _ => if d ≠ 92 ∧ d ≠ 47 then cs else best
        | [] => best
      else best
    pathFindFileNameFrom next cs

/-- The call `PathFindFileNameW`. -/
def PathFindFileNameW (path : WString) : WString := pathFindFileNameFrom path path

/-- The body of the inner callback of `getEdgeInstances` for one window: the record it
pushes, if any, and its effects. -/
def visitWindow (env : Env) (w : Window) : Option (Nat × WString × WString × WString) × List Effect :=
  if IsWindowClass w (lit "Internet Explorer_Server") then
    let processName : WString := if w.openProcess then w.moduleFileName else []
    let isEdgeContentProcess : Bool :=
      if w.openProcess then isEdgeContentProcessPath processName else false
    if isEdgeContentProcess then
      if env.getDocumentFromHwnd w.hwnd = S_OK then
        let doc := env.document w.hwnd
        let url := if doc.url.1 ≠ S_OK then lit "unknown" else doc.url.2
        let title := if doc.title.1 ≠ S_OK then [] else doc.title.2
        (some (w.hwnd, title, url, PathFindFileNameW processName),
          [Effect.getDocumentFromHwnd w.hwnd])
      else (none, [Effect.getDocumentFromHwnd w.hwnd])
    else (none, [])
  else (none, [])

/-- The method `getEdgeInstances` of the addon. -/
def getEdgeInstances (g : Globals) (env : Env) (info : List JsValue) : Outcome :=
  let ensured := EnsureInitialized g
  if 0 < info.length then
    { globals := g, ret := RetVal.undefined,
      effects := ensured ++ [Effect.throwTypeError
        "Incorrect arguments - getEdgeInstances(): \x7b id: string, url: string, title: string, processName: string \x7d[]"] }
  else
    let visits := env.topLevelWindows.flatten.map (visitWindow env)
    let instances := visits.filterMap (fun v => v.1)
    { globals := g
      ret := RetVal.instances (instances.map (fun i =>
        { id := formatP env.ptrBits i.1
          url := env.toAnsi i.2.2.1
          title := env.toAnsi i.2.1
          processName := env.toAnsi i.2.2.2 }))
      effects := ensured ++ [Effect.enumWindows] ++ (visits.map (fun v => v.2)).flatten }

/-! ## The ACL utility -/

/-- The argument of the last `Log` of `setSecurityACLs`, the pointer sum
`"ERROR: Win32 error code: " + GetLastError()`: the literal advanced by that many
characters. Up to the length of the literal the sum points into it (at the length, to
its terminating NUL); a larger sum points behind the literal, where the read finds what
the image holds there. -/
def win32ErrorText (env : Env) : AString :=
  let literal := lit "ERROR: Win32 error code: "
  if env.getLastError ≤ literal.length then literal.drop env.getLastError
  else env.beyondLiteral (env.getLastError - literal.length - 1)

/-- The method `setSecurityACLs` of the addon. -/
def setSecurityACLs (g : Globals) (env : Env) (info : List JsValue) : Outcome :=
  let ensured := EnsureInitialized g
  match info with
  | JsValue.string path :: _ =>
    let fullPath := env.toWide (cstr path)
    let queried := ensured ++ [Effect.getNamedSecurityInfo fullPath]
    if env.convertStringSidToSid then
      if env.setEntriesInAcl = ERROR_SUCCESS then
        if env.setNamedSecurityInfo = ERROR_SUCCESS then
          { globals := g, ret := RetVal.boolean true,
            effects := queried ++ [Effect.setNamedSecurityInfo fullPath] }
        else
          { globals := g, ret := RetVal.boolean false,
            effects := queried ++ [Effect.setNamedSecurityInfo fullPath] ++
              Log g (lit "ERROR: Could not set ACL to allow access to Edge.\nYou can set the ACL manually by adding Read & Execute permissions for 'All APPLICATION PACAKGES' to each dll.") }
      else
        { globals := g, ret := RetVal.boolean false, effects := queried }
    else
      { globals := g, ret := RetVal.boolean false,
        effects := queried ++
          andThen (Log g (lit "ERROR: Failed to get the SID for ALL_APP_PACKAGES."))
            (Log g (win32ErrorText env)) }
  | _ =>
    { globals := g, ret := RetVal.undefined,
      effects := ensured ++ [Effect.throwTypeError
        "Incorrect arguments - setSecurityACLs(filePath: string): boolean"] }

/-! ## Attach -/

/-- The path of the companion module `connectTo` passes to `StartDiagnosticsMode`. -/
def proxyPath (g : Globals) (is64BitTab : Bool) : WString :=
  (g.m_rootPath ++ lit "\\..\\..\\lib\\") ++
    (if is64BitTab then lit "Proxy64.dll" else lit "Proxy.dll")

/-- The local `is64BitTab` of `connectTo`: the OS is 64-bit and
`IsWow64Process(GetCurrentProcess(), &isWoWTab)` stored `FALSE`. -/
def is64BitTab (env : Env) : Bool :=
  let is64BitOS := env.nativeArchitectureIsAmd64
  let isWoWTab := env.isWow64Process ProcessRef.currentProcess
  is64BitOS && !isWoWTab

/-- The method `connectTo` of the addon. -/
def connectTo (g : Globals) (env : Env) (info : List JsValue) : Outcome :=
  let ensured := EnsureInitialized g
  match info with
  | JsValue.string id :: _ =>
    let hwnd := decodeId env.ptrBits id
    let resolved := ensured ++ [Effect.getDocumentFromHwnd hwnd]
    if env.getDocumentFromHwnd hwnd = S_OK then
      let tab64 := is64BitTab env
      let path := proxyPath g tab64
      let hr := env.startDiagnosticsMode hwnd path
      let started := resolved ++ [Effect.startDiagnosticsMode hwnd path]
      if hr = E_ACCESSDENIED ∧ tab64 = true ∧ env.isWindows8Point1OrGreater = true then
        { globals := g, ret := RetVal.null,
          effects := started ++ Log g (lit "ERROR: Access denied while attempting to connect to a 64 bit tab. The most common solution to this problem is to open an Administrator command prompt, navigate to the folder containing this adapter, and type \"icacls proxy64.dll /grant \"ALL APPLICATION PACKAGES\":(RX)\"") }
      else if hr = HRESULT_MOD_NOT_FOUND ∧ tab64 = true then
        { globals := g, ret := RetVal.null,
          effects := started ++ Log g (lit "ERROR: Module could not be found. Ensure Proxy64.dll exists in the out\\lib\\ folder") }
      else if hr = HRESULT_MOD_NOT_FOUND ∧ tab64 = false then
        { globals := g, ret := RetVal.null,
          effects := started ++ Log g (lit "ERROR: Module could not be found. Ensure Proxy.dll exists in the out\\lib\\ folder") }
      else if hr ≠ S_OK then
        { globals := g, ret := RetVal.null, effects := started ++ EXIT_IF_NOT_S_OK g env hr }
      else
        let newHwnd := env.getWindow.2
        let checked := EXIT_IF_NOT_S_OK g env env.getWindow.1
        let queried := started ++ [Effect.getWindow] ++ checked
        let newId := formatP env.ptrBits newHwnd
        if faulted checked then
          { globals := g, ret := RetVal.null, effects := queried }
        else if !g.isMessageReceiverCreated then
          { globals := { g with isMessageReceiverCreated := true, m_proxyHwnd := env.receiverHwnd }
            ret := RetVal.string newId
            effects := queried ++ [Effect.newMessageReceiver g.messageCallbackHandle newHwnd] }
        else
          { globals := g, ret := RetVal.string newId, effects := queried }
    else
      { globals := g, ret := RetVal.null, effects := resolved }
  | _ =>
    { globals := g, ret := RetVal.undefined,
      effects := ensured ++ [Effect.throwTypeError
        "Incorrect arguments - connectTo(id: string): string"] }

/-! ## Sending -/

/-- The text `command.Format("inject:%s:%s:%s", engine, filename, script)` builds: every
`%s` copies its argument up to the first NUL. -/
def injectCommand (engine filename script : AString) : AString :=
  lit "inject:" ++ cstr engine ++ lit ":" ++ cstr filename ++ lit ":" ++ cstr script

/-- The method `injectScriptTo` of the addon. -/
def injectScriptTo (g : Globals) (env : Env) (info : List JsValue) : Outcome :=
  let ensured := EnsureInitialized g
  match info with
  | JsValue.string edgeInstanceId :: JsValue.string engine :: JsValue.string filename ::
      JsValue.string script :: _ =>
    let instanceHwnd := decodeId env.ptrBits edgeInstanceId
    let command := injectCommand engine filename script
    let message := env.toWide command
    { globals := g, ret := RetVal.undefined,
      effects := ensured ++ SendMessageToInstance g env instanceHwnd message }
  | _ =>
    { globals := g, ret := RetVal.undefined,
      effects := ensured ++ [Effect.throwTypeError
        "Incorrect arguments - injectScriptTo(instanceId: string, engine: string, filename: string, script: string): void"] }

/-- The method `forwardTo` of the addon. -/
def forwardTo (g : Globals) (env : Env) (info : List JsValue) : Outcome :=
  let ensured := EnsureInitialized g
  match info with
  | JsValue.string edgeInstanceId :: JsValue.string actualMessage :: _ =>
    let instanceHwnd := decodeId env.ptrBits edgeInstanceId
    let convertedMessage := cstr actualMessage
    let message := env.toWide convertedMessage
    { globals := g, ret := RetVal.undefined,
      effects := ensured ++ SendMessageToInstance g env instanceHwnd message }
  | _ =>
    { globals := g, ret := RetVal.undefined,
      effects := ensured ++ [Effect.throwTypeError
        "Incorrect arguments - forwardTo(instanceId: string, message: string): void"] }

/-! ## Sequences of calls -/

/-- The six exported methods. -/
inductive Method where
  | initializeOp
  | getEdgeInstancesOp
  | setSecurityACLsOp
  | connectToOp
  | injectScriptToOp
  | forwardToOp
deriving DecidableEq, Repr

/-- One call from JavaScript: the method, its arguments, the behaviour of the OS during
the call, and the window handle the receiver's worker has stored through the pointer
`&m_proxyHwnd` since the previous call, if it has stored one. -/
structure Call where
  /-- The method called. -/
  method : Method
  /-- The arguments. -/
  info : List JsValue
  /-- The OS during the call. -/
  env : Env
  /-- A store of the receiver's worker into `m_proxyHwnd` before the call. -/
  published : Option Nat

/-- The globals at the start of a call: a receiver that exists may have published its
window handle. -/
def beforeCall (g : Globals) (c : Call) : Globals :=
  match c.published with
  | some h => if g.isMessageReceiverCreated then { g with m_proxyHwnd := h } else g
  | none => g

/-- Dispatch of one call. -/
def invoke (g : Globals) (c : Call) : Outcome :=
  match c.method with
  | Method.initializeOp => initializeCall (beforeCall g c) c.env c.info
  | Method.getEdgeInstancesOp => getEdgeInstances (beforeCall g c) c.env c.info
  | Method.setSecurityACLsOp => setSecurityACLs (beforeCall g c) c.env c.info
  | Method.connectToOp => connectTo (beforeCall g c) c.env c.info
  | Method.injectScriptToOp => injectScriptTo (beforeCall g c) c.env c.info
  | Method.forwardToOp => forwardTo (beforeCall g c) c.env c.info

/-- Run a sequence of calls: the globals at the end and the effects of all calls. A call
that ends the process is the last one performed. -/
def runCalls : Globals → List Call → Globals × List Effect
  | g, [] => (g, [])
  | g, c :: cs =>
    let o := invoke g c
    if faulted o.effects then (o.globals, o.effects)
    else
      let rest := runCalls o.globals cs
      (rest.1, o.effects ++ rest.2)

/-- Whether an effect is the construction of a `MessageReceiver`. -/
def isReceiverConstruction : Effect → Bool
  | Effect.newMessageReceiver _ _ => true
  | _ => false

/-- Number of `MessageReceiver` constructions among effects. -/
def receiversConstructed (effects : List Effect) : Nat :=
  effects.countP isReceiverConstruction

/-- Whether `connectTo` reaches its success branch (the final `else`): the argument is a
string, the document is resolved from the decoded handle and `StartDiagnosticsMode`
returns `S_OK`. -/
def connectToReachesSuccess (g : Globals) (env : Env) (info : List JsValue) : Bool :=
  match info with
  | JsValue.string id :: _ =>
    let hwnd := decodeId env.ptrBits id
    decide (env.getDocumentFromHwnd hwnd = S_OK) &&
      decide (env.startDiagnosticsMode hwnd (proxyPath g (is64BitTab env)) = S_OK)
  | _ => false

/-- Whether a call is a `connectTo` that reaches the success branch. -/
def reachesSuccessBranch (g : Globals) (c : Call) : Bool :=
  match c.method with
  | Method.connectToOp => connectToReachesSuccess (beforeCall g c) c.env c.info
  | _ => false

/-! ## A sample platform for evaluation -/

/-- The code unit of a byte in code page 1252. -/
def cp1252Unit (b : Nat) : Nat :=
  match b with
  | 0x80 => 0x20AC | 0x82 => 0x201A | 0x83 => 0x0192 | 0x84 => 0x201E | 0x85 => 0x2026
  | 0x86 => 0x2020 | 0x87 => 0x2021 | 0x88 => 0x02C6 | 0x89 => 0x2030 | 0x8A => 0x0160
  | 0x8B => 0x2039 | 0x8C => 0x0152 | 0x8E => 0x017D | 0x91 => 0x2018 | 0x92 => 0x2019
  | 0x93 => 0x201C | 0x94 => 0x201D | 0x95 => 0x2022 | 0x96 => 0x2013 | 0x97 => 0x2014
  | 0x98 => 0x02DC | 0x99 => 0x2122 | 0x9A => 0x0161 | 0x9B => 0x203A | 0x9C => 0x0153
  | 0x9E => 0x017E | 0x9F => 0x0178
  | other => other

/-- The byte of a code unit in code page 1252, a question mark when it has none. -/
def cp1252Byte (u : Nat) : Nat :=
  match (List.range 256).find? (fun b => cp1252Unit b == u) with
  | some b => b
  | none => 63

/-- A 64-bit Windows 10 host with ANSI code page 1252 on which every OS call succeeds,
with a one-field message header, the addon running as a native 64-bit process, and no
window. -/
def sampleEnv : Env :=
  { ptrBits := 64
    sizeofStringMessageData := 4
    stringMessageSignature := 1
    freshByte := fun _ => 205
    acpToWide := fun s => s.map cp1252Unit
    acpToAnsi := fun s => s.map cp1252Byte
    errorMessage := fun _ => lit "Unspecified error"
    coInitializeEx := S_OK
    topLevelWindows := []
    getDocumentFromHwnd := fun _ => S_OK
    document := fun _ => { url := (S_OK, lit "about:blank"), title := (S_OK, lit "Blank") }
    nativeArchitectureIsAmd64 := true
    isWow64Process := fun _ => false
    isWindows8Point1OrGreater := true
    startDiagnosticsMode := fun _ _ => S_OK
    getWindow := (S_OK, 0x30D40)
    receiverHwnd := 0
    convertStringSidToSid := true
    setEntriesInAcl := ERROR_SUCCESS
    setNamedSecurityInfo := ERROR_SUCCESS
    getLastError := 0
    beyondLiteral := fun _ => [] }

/-- Globals after a successful setup with root path `C:\adapter\out\native`. -/
def readyGlobals : Globals :=
  { isInitialized := true, isMessageReceiverCreated := false,
    messageCallbackHandle := some 1, logCallbackHandle := some 2,
    m_rootPath := lit "C:\\adapter\\out\\native", m_proxyHwnd := 0 }

/-! ## Inputs and auxiliary definitions used in the statements -/

/-- A window of a program that hosts the browser control: class
`Internet Explorer_Server`, image path `C:\Apps\viewer.exe` (18 characters). -/
def viewerWindow : Window :=
  { hwnd := 0x50A1C
    className := lit "Internet Explorer_Server"
    openProcess := true
    moduleFileName := lit "C:\\Apps\\viewer.exe" }

/-- The sample platform with `viewerWindow` as the only child window. -/
def viewerEnv : Env := { sampleEnv with topLevelWindows := [[viewerWindow]] }

/-- A tab surface of the browser: class `Internet Explorer_Server`, owned by a content
process. -/
def edgeWindow : Window :=
  { hwnd := 0x60B2E
    className := lit "Internet Explorer_Server"
    openProcess := true
    moduleFileName :=
      lit "C:\\Windows\\SystemApps\\Microsoft.MicrosoftEdge_8wekyb3d8bbwe\\MicrosoftEdgeCP.exe" }

/-- The sample platform with `edgeWindow` as the only child window. -/
def edgeEnv : Env := { sampleEnv with topLevelWindows := [[edgeWindow]] }

/-- A 64-bit host on which the addon runs as an emulated 32-bit process (WOW64) while the
processes of the tabs are native 64-bit processes. -/
def emulatedAdapterEnv : Env :=
  { sampleEnv with
    ptrBits := 32
    isWow64Process := fun p => decide (p = ProcessRef.currentProcess) }

/-- The generic failure code `E_FAIL`. -/
def E_FAIL : HRESULT := 0x80004005

/-- The sample platform with a site whose `GetWindow` fails and leaves a null handle. -/
def getWindowFailsEnv : Env := { sampleEnv with getWindow := (E_FAIL, 0) }

/-- Whether an effect is a call of the log callback. -/
def isLog : Effect → Bool
  | Effect.log _ _ => true
  | _ => false

/-- The sample platform on which no handle resolves to a document. -/
def staleEnv : Env := { sampleEnv with getDocumentFromHwnd := fun _ => E_FAIL }

/-- The message text the specification gives for a script injection, from the texts of
the three strings: `inject:<engine>:<filename>:<script>`. -/
def specInjectText (engine filename script : WString) : WString :=
  lit "inject:" ++ engine ++ lit ":" ++ filename ++ lit ":" ++ script

/-- The result code `RPC_E_CHANGED_MODE`: COM is already initialized on the thread with
another concurrency model. -/
def RPC_E_CHANGED_MODE : HRESULT := 0x80010106

/-- The sample platform on which `CoInitializeEx` fails. -/
def comFailsEnv : Env := { sampleEnv with coInitializeEx := RPC_E_CHANGED_MODE }

/-- No call of the sequence, run from the given globals, is a `connectTo` that reaches
the success branch. -/
def noneReachesSuccess : Globals → List Call → Bool
  | _, [] => true
  | g, c :: cs => !reachesSuccessBranch g c && noneReachesSuccess (invoke g c).globals cs

/-- A setup call on the sample platform. -/
def sampleSetupCall : Call :=
  { method := Method.initializeOp
    info := [JsValue.string (lit "C:\\adapter\\out\\native"), JsValue.function 1,
      JsValue.function 2]
    env := sampleEnv
    published := none }

/-- A `connectTo("000A0B2C")` on the sample platform. -/
def sampleConnectCall : Call :=
  { method := Method.connectToOp
    info := [JsValue.string (lit "000A0B2C")]
    env := sampleEnv
    published := none }

/-- A `connectTo("000A0B2C")` on a platform where the site's `GetWindow` fails. -/
def earlyConnectCall : Call :=
  { method := Method.connectToOp
    info := [JsValue.string (lit "000A0B2C")]
    env := getWindowFailsEnv
    published := none }

/-- An `injectScriptTo` on the sample platform, after the receiver has published the
handle `0x77` of its window. -/
def sampleInjectCall : Call :=
  { method := Method.injectScriptToOp
    info := [JsValue.string (lit "0000000000030D40"), JsValue.string (lit "js"),
      JsValue.string (lit "f.js"), JsValue.string (lit "1+1")]
    env := sampleEnv
    published := some 0x77 }

/-! ## Lemmas on ids -/

theorem hexDigit_upper_range (d : Nat) (h : d < 16) :
    (48 ≤ hexDigit true d ∧ hexDigit true d ≤ 57) ∨
      (65 ≤ hexDigit true d ∧ hexDigit true d ≤ 70) := by
  unfold hexDigit
  split <;> simp <;> omega

theorem hexVal_hexDigit_upper (d : Nat) (h : d < 16) : hexVal (hexDigit true d) = some d := by
  unfold hexVal hexDigit
  by_cases h10 : d < 10
  · have h1 : 48 ≤ 48 + d ∧ 48 + d ≤ 57 := by omega
    simp [h10, h1]
  · have h1 : ¬ (48 ≤ 55 + d ∧ 55 + d ≤ 57) := by omega
    have h2 : 65 ≤ 55 + d ∧ 55 + d ≤ 70 := by omega
    simp [h10, h1, h2]

theorem hexFixed_length (u : Bool) (n v : Nat) : (hexFixed u n v).length = n := by
  induction n generalizing v with
  | zero => simp [hexFixed]
  | succ n ih => simp [hexFixed, ih]

theorem hexFixed_upper_range (n v c : Nat) (hc : c ∈ hexFixed true n v) :
    (48 ≤ c ∧ c ≤ 57) ∨ (65 ≤ c ∧ c ≤ 70) := by
  induction n generalizing v with
  | zero => simp [hexFixed] at hc
  | succ n ih =>
    simp only [hexFixed, List.mem_append, List.mem_singleton] at hc
    rcases hc with hc | hc
    · exact ih _ hc
    · subst hc
      exact hexDigit_upper_range _ (Nat.mod_lt _ (by decide))

theorem accumHex_hexFixed (n v acc : Nat) (rest : List Nat) :
    accumHex acc (hexFixed true n v ++ rest) = accumHex (acc * 16 ^ n + v % 16 ^ n) rest := by
  induction n generalizing v rest with
  | zero => simp [hexFixed, Nat.mod_one]
  | succ n ih =>
    have hd : hexVal (hexDigit true (v % 16)) = some (v % 16) :=
      hexVal_hexDigit_upper _ (Nat.mod_lt _ (by decide))
    have hstep : (acc * 16 ^ n + v / 16 % 16 ^ n) * 16 + v % 16
        = acc * 16 ^ (n + 1) + v % 16 ^ (n + 1) := by
      rw [pow_succ', Nat.mod_mul]
      ring
    simp only [hexFixed, List.append_assoc, List.singleton_append]
    rw [ih, accumHex, hd]
    simp only
    rw [hstep]

theorem skipSpace_cons_of_range (c : Nat) (cs : List Nat)
    (h : (48 ≤ c ∧ c ≤ 57) ∨ (65 ≤ c ∧ c ≤ 70)) : skipSpace (c :: cs) = c :: cs := by
  have hs : isspace c = false := by
    unfold isspace
    simp
    omega
  simp [skipSpace, hs]

theorem takeSign_cons_of_range (c : Nat) (cs : List Nat)
    (h : (48 ≤ c ∧ c ≤ 57) ∨ (65 ≤ c ∧ c ≤ 70)) : takeSign (c :: cs) = (false, c :: cs) := by
  unfold takeSign
  split
  · rename_i heq
    simp only [List.cons.injEq] at heq
    omega
  · rename_i heq
    simp only [List.cons.injEq] at heq
    omega
  · rfl

theorem skip0x_cons_of_range (c d : Nat) (cs : List Nat)
    (h : (48 ≤ d ∧ d ≤ 57) ∨ (65 ≤ d ∧ d ≤ 70)) : skip0x (c :: d :: cs) = c :: d :: cs := by
  unfold skip0x
  split
  · rename_i heq
    simp only [List.cons.injEq] at heq
    omega
  · rename_i heq
    simp only [List.cons.injEq] at heq
    omega
  · rfl

/-- For at least two digits, `strtol` reads a fixed-width upper-case rendering as the
value of its digits, saturated at `LONG_MAX`. -/
theorem strtol16_hexFixed (n v : Nat) (hn : 2 ≤ n) :
    strtol16 (hexFixed true n v)
      = if LONG_MAX < ((v % 16 ^ n : Nat) : Int) then LONG_MAX else ((v % 16 ^ n : Nat) : Int) := by
  have hlen := hexFixed_length true n v
  have hacc := accumHex_hexFixed n v 0 []
  have hrange := hexFixed_upper_range n v
  generalize hexFixed true n v = l at hlen hacc hrange
  match l, hlen with
  | c :: d :: cs, _ =>
    have hc := hrange c (by simp)
    have hd := hrange d (by simp)
    simp only [List.append_nil, Nat.zero_mul, Nat.zero_add] at hacc
    simp only [strtol16, skipSpace_cons_of_range c _ hc, takeSign_cons_of_range c _ hc,
      skip0x_cons_of_range c d cs hd, hacc, accumHex]
    simp
  | [], hl => simp at hl; omega
  | [_], hl => simp at hl; omega

theorem toHandle_of_nonneg (w v : Nat) (h : v < 2 ^ w) : toHandle w (v : Int) = v := by
  unfold toHandle
  have h2 : ((v : Int)) % (2 : Int) ^ w = (v : Int) := by
    apply Int.emod_eq_of_lt
    · exact Int.ofNat_nonneg v
    · exact_mod_cast h
  rw [h2]
  simp

/-- The extent of the defect in the decoder: on 32-bit and 64-bit platforms a handle is
recovered from its `%p` id when it is not above `LONG_MAX` (`0x7FFFFFFF`), and every larger
handle is lost. -/
theorem decodeId_formatP_roundtrip (w h : Nat) (hw : w = 32 ∨ w = 64) (hh : h < 2 ^ w) :
    (h ≤ 2147483647 → decodeId w (formatP w h) = h) ∧
    (2147483647 < h → decodeId w (formatP w h) = 2147483647) := by
  have hn : 2 ≤ w / 4 := by rcases hw with rfl | rfl <;> decide
  have hpow : h < 16 ^ (w / 4) := by
    rcases hw with rfl | rfl <;> norm_num at hh ⊢ <;> omega
  have hmax : 2147483647 < 2 ^ w := by
    rcases hw with rfl | rfl <;> norm_num
  unfold decodeId formatP
  rw [strtol16_hexFixed _ _ hn, Nat.mod_eq_of_lt hpow]
  constructor
  · intro hle
    have hnot : ¬ (LONG_MAX < (h : Int)) := by
      unfold LONG_MAX
      omega
    rw [if_neg hnot]
    exact toHandle_of_nonneg w h hh
  · intro hgt
    have hover : LONG_MAX < (h : Int) := by
      unfold LONG_MAX
      omega
    rw [if_pos hover]
    exact toHandle_of_nonneg w 2147483647 hmax

/-- The handle `0xA0B2C` on a 64-bit platform is recovered from its id. -/
theorem decodeId_formatP_roundtrip_sample :
    decodeId 64 (formatP 64 658220) = 658220 :=
  (decodeId_formatP_roundtrip 64 658220 (by decide) (by decide)).1 (by decide)

/-- C1: the round trip is broken for the handle `0x80000000`. On a 32-bit platform it is
rendered as `80000000`, which the signed `strtol` replaces by `LONG_MAX`, so the decoder
gives the handle `0x7FFFFFFF`, another window; the same happens on a 64-bit platform with
`0000000080000000`. -/
theorem decodeId_formatP_saturates :
    (2147483648 < 2 ^ 32 ∧ formatP 32 2147483648 = lit "80000000" ∧
      decodeId 32 (formatP 32 2147483648) = 2147483647 ∧
      decodeId 32 (formatP 32 2147483648) ≠ 2147483648) ∧
    (2147483648 < 2 ^ 64 ∧ formatP 64 2147483648 = lit "0000000080000000" ∧
      decodeId 64 (formatP 64 2147483648) = 2147483647 ∧
      decodeId 64 (formatP 64 2147483648) ≠ 2147483648) := by
  decide

/-! ## Discovery: the process-image test -/

theorem findSub_short (pat s : WString) (i : Nat) (h : s.length < pat.length) :
    findSub pat s i = -1 := by
  induction s generalizing i with
  | nil =>
    have hne : pat.isEmpty = false := by
      cases pat with
      | nil => simp at h
      | cons _ _ => rfl
    simp [findSub, hne]
  | cons c cs ih =>
    have hnp : pat.isPrefixOf (c :: cs) = false := by
      cases hp : pat.isPrefixOf (c :: cs)
      · rfl
      · have hle := (List.isPrefixOf_iff_prefix.mp hp).length_le
        omega
    simp only [findSub, hnp]
    exact ih (i + 1) (by simp at h ⊢; omega)

theorem findSub_found (pat s : WString) (i : Nat) (h : findSub pat s i ≠ -1) :
    ∃ j : Nat, findSub pat s i = ((i + j : Nat) : Int) ∧ j ≤ s.length ∧ pat <+: s.drop j := by
  induction s generalizing i with
  | nil =>
    cases pat with
    | nil => exact ⟨0, by simp [findSub], by simp, by simp⟩
    | cons a as => simp [findSub] at h
  | cons c cs ih =>
    cases hp : pat.isPrefixOf (c :: cs)
    · have hstep : findSub pat (c :: cs) i = findSub pat cs (i + 1) := by
        simp [findSub, hp]
      rw [hstep] at h ⊢
      obtain ⟨j, hj, hlen, hpre⟩ := ih (i + 1) h
      refine ⟨j + 1, ?_, by simp; omega, by simpa using hpre⟩
      rw [hj]
      congr 1
      omega
    · exact ⟨0, by simp [findSub, hp], by simp, by
        simpa using List.isPrefixOf_iff_prefix.mp hp⟩

/-- Every path of exactly 18 characters passes the process-image test. -/
theorem isEdgeContentProcessPath_of_length_18 (p : WString) (h : p.length = 18) :
    isEdgeContentProcessPath p = true := by
  have hshort : findSub edgeContentProcessName p 0 = -1 :=
    findSub_short _ _ _ (by rw [h]; decide)
  simp [isEdgeContentProcessPath, hshort, h]

/-- A path of at least 19 characters that passes the process-image test ends with
`MicrosoftEdgeCP.exe`. -/
theorem suffix_of_isEdgeContentProcessPath (p : WString) (hlen : 19 ≤ p.length)
    (h : isEdgeContentProcessPath p = true) : edgeContentProcessName <:+ p := by
  have hpat : edgeContentProcessName.length = 19 := by decide
  simp only [isEdgeContentProcessPath, beq_iff_eq] at h
  have hne : findSub edgeContentProcessName p 0 ≠ -1 := by
    rw [h]
    omega
  obtain ⟨j, hj, _, hpre⟩ := findSub_found _ _ _ hne
  have hjeq : j = p.length - 19 := by
    rw [hj] at h
    omega
  have hdrop : (p.drop j).length = edgeContentProcessName.length := by
    rw [List.length_drop, hpat]
    omega
  have heq : edgeContentProcessName = p.drop j := hpre.eq_of_length hdrop.symm
  rw [heq]
  exact List.drop_suffix j p

/-- C2: the acceptance test is true for the 18-character path `C:\Apps\viewer.exe`, which
does not end with `MicrosoftEdgeCP.exe` (`Find` gives -1 and so does `GetLength() - 19`),
and `getEdgeInstances` lists the window. -/
theorem getEdgeInstances_lists_foreign_process :
    viewerWindow.moduleFileName.length = 18 ∧
    ¬ (edgeContentProcessName <:+ viewerWindow.moduleFileName) ∧
    findSub edgeContentProcessName viewerWindow.moduleFileName 0 = -1 ∧
    isEdgeContentProcessPath viewerWindow.moduleFileName = true ∧
    (getEdgeInstances readyGlobals viewerEnv []).ret =
      RetVal.instances [{ id := lit "0000000000050A1C", url := lit "about:blank",
                          title := lit "Blank", processName := lit "viewer.exe" }] := by
  decide

/-! ## Attach: choice of the companion module -/

/-- The module path handed to `StartDiagnosticsMode` is decided by the OS and by the
emulation status of the current process alone. -/
theorem proxyPath_is64BitTab (g : Globals) (env : Env) :
    proxyPath g (is64BitTab env) =
      if env.nativeArchitectureIsAmd64 = true ∧
          env.isWow64Process ProcessRef.currentProcess = false
      then g.m_rootPath ++ lit "\\..\\..\\lib\\Proxy64.dll"
      else g.m_rootPath ++ lit "\\..\\..\\lib\\Proxy.dll" := by
  unfold proxyPath is64BitTab
  cases env.nativeArchitectureIsAmd64 <;> cases env.isWow64Process ProcessRef.currentProcess <;>
    simp <;> decide

/-- C3: host OS 64-bit, target tab's process not emulated, addon's own process emulated:
`connectTo` passes `r + "\..\..\lib\Proxy.dll"`, not `Proxy64.dll`. -/
theorem connectTo_module_follows_own_process :
    emulatedAdapterEnv.nativeArchitectureIsAmd64 = true ∧
    emulatedAdapterEnv.isWow64Process (ProcessRef.windowOwner 0xA0B2C) = false ∧
    emulatedAdapterEnv.isWow64Process ProcessRef.currentProcess = true ∧
    (connectTo readyGlobals emulatedAdapterEnv [JsValue.string (lit "000A0B2C")]).effects =
      [Effect.getDocumentFromHwnd 0xA0B2C,
       Effect.startDiagnosticsMode 0xA0B2C
         (readyGlobals.m_rootPath ++ lit "\\..\\..\\lib\\Proxy.dll"),
       Effect.getWindow,
       Effect.newMessageReceiver (some 1) 0x30D40] := by
  decide

/-! ## Calls before setup -/

theorem SendMessageToInstance_flag (g : Globals) (env : Env) (h : Nat) (m : WString)
    (b : Bool) :
    SendMessageToInstance { g with isInitialized := b } env h m
      = SendMessageToInstance g env h m := rfl

/-- The check of `EnsureInitialized` does not stop `forwardTo`: apart from the error
thrown, the call does what it does when the flag is set. -/
theorem forwardTo_after_EnsureInitialized (g : Globals) (env : Env) (info : List JsValue) :
    (forwardTo g env info).effects
      = EnsureInitialized g ++
          (forwardTo { g with isInitialized := true } env info).effects := by
  unfold forwardTo
  simp only
  split <;> simp [EnsureInitialized, SendMessageToInstance_flag]

/-- The check of `EnsureInitialized` does not stop `injectScriptTo`. -/
theorem injectScriptTo_after_EnsureInitialized (g : Globals) (env : Env)
    (info : List JsValue) :
    (injectScriptTo g env info).effects
      = EnsureInitialized g ++
          (injectScriptTo { g with isInitialized := true } env info).effects := by
  unfold injectScriptTo
  simp only
  split <;> simp [EnsureInitialized, SendMessageToInstance_flag]

/-- The check of `EnsureInitialized` does not stop `getEdgeInstances`. -/
theorem getEdgeInstances_after_EnsureInitialized (g : Globals) (env : Env)
    (info : List JsValue) :
    (getEdgeInstances g env info).effects
      = EnsureInitialized g ++
          (getEdgeInstances { g with isInitialized := true } env info).effects ∧
    (getEdgeInstances g env info).ret
      = (getEdgeInstances { g with isInitialized := true } env info).ret := by
  unfold getEdgeInstances
  simp only
  split <;> simp [EnsureInitialized]

set_option maxHeartbeats 2000000 in
/-- The check of `EnsureInitialized` does not stop `connectTo`. -/
theorem connectTo_after_EnsureInitialized (g : Globals) (env : Env) (info : List JsValue) :
    (connectTo g env info).effects
      = EnsureInitialized g ++ (connectTo { g with isInitialized := true } env info).effects ∧
    (connectTo g env info).ret = (connectTo { g with isInitialized := true } env info).ret := by
  have hflag : EnsureInitialized { g with isInitialized := true } = [] := rfl
  have hlog : ∀ m, Log { g with isInitialized := true } m = Log g m := fun _ => rfl
  have hexit : ∀ hr, EXIT_IF_NOT_S_OK { g with isInitialized := true } env hr
      = EXIT_IF_NOT_S_OK g env hr := fun _ => rfl
  unfold connectTo
  dsimp only [proxyPath]
  rw [hflag]
  simp only [hlog, hexit]
  split
  · split_ifs <;> exact ⟨by simp only [List.nil_append, List.append_assoc], rfl⟩
  · exact ⟨rfl, rfl⟩

/-- The check of `EnsureInitialized` does not stop `setSecurityACLs`. -/
theorem setSecurityACLs_after_EnsureInitialized (g : Globals) (env : Env)
    (info : List JsValue) :
    (setSecurityACLs g env info).effects
      = EnsureInitialized g ++
          (setSecurityACLs { g with isInitialized := true } env info).effects ∧
    (setSecurityACLs g env info).ret
      = (setSecurityACLs { g with isInitialized := true } env info).ret := by
  have hflag : EnsureInitialized { g with isInitialized := true } = [] := rfl
  have hlog : ∀ m, Log { g with isInitialized := true } m = Log g m := fun _ => rfl
  unfold setSecurityACLs
  dsimp only
  rw [hflag]
  simp only [hlog]
  split
  · split_ifs <;> exact ⟨by simp only [List.nil_append, List.append_assoc], rfl⟩
  · exact ⟨rfl, rfl⟩

/-- C4: with `isInitialized` false, `forwardTo("000A0B2C", "hi")` throws the error and
still sends the frame of `hi` to the handle `0xA0B2C`; `getEdgeInstances()` still walks
the windows and returns a list; `connectTo` still attaches, constructs the receiver and
changes the globals. -/
theorem calls_before_setup_go_on :
    initialGlobals.isInitialized = false ∧
    (forwardTo initialGlobals sampleEnv
        [JsValue.string (lit "000A0B2C"), JsValue.string (lit "hi")]).effects =
      [Effect.throwTypeError notInitializedError,
       Effect.sendMessage 0xA0B2C 0
         { dwData := 1, cbData := 10, lpData := [4, 0, 0, 0, 104, 0, 105, 0, 0, 0] }] ∧
    (getEdgeInstances initialGlobals edgeEnv []).effects =
      [Effect.throwTypeError notInitializedError, Effect.enumWindows,
       Effect.getDocumentFromHwnd 0x60B2E] ∧
    (getEdgeInstances initialGlobals edgeEnv []).ret =
      RetVal.instances [{ id := lit "0000000000060B2E", url := lit "about:blank",
                          title := lit "Blank", processName := lit "MicrosoftEdgeCP.exe" }] ∧
    (connectTo initialGlobals sampleEnv [JsValue.string (lit "000A0B2C")]).effects =
      [Effect.throwTypeError notInitializedError,
       Effect.getDocumentFromHwnd 0xA0B2C,
       Effect.startDiagnosticsMode 0xA0B2C (lit "\\..\\..\\lib\\Proxy64.dll"),
       Effect.getWindow,
       Effect.newMessageReceiver none 0x30D40] ∧
    (connectTo initialGlobals sampleEnv [JsValue.string (lit "000A0B2C")]).globals
      ≠ initialGlobals := by
  decide

/-! ## Attach: failures -/

/-- C5: the document is resolved and `StartDiagnosticsMode` returns `S_OK`, but
`GetWindow` returns `E_FAIL`: `connectTo` logs the code, then returns the id of whatever
the local `hwnd` holds and constructs the receiver. -/
theorem connectTo_returns_id_when_GetWindow_fails :
    getWindowFailsEnv.getWindow.1 ≠ S_OK ∧
    (connectTo readyGlobals getWindowFailsEnv [JsValue.string (lit "000A0B2C")]).ret =
      RetVal.string (lit "0000000000000000") ∧
    (connectTo readyGlobals getWindowFailsEnv [JsValue.string (lit "000A0B2C")]).effects =
      [Effect.getDocumentFromHwnd 0xA0B2C,
       Effect.startDiagnosticsMode 0xA0B2C
         (readyGlobals.m_rootPath ++ lit "\\..\\..\\lib\\Proxy64.dll"),
       Effect.getWindow,
       Effect.log (some 2) (lit "ERROR: HRESULT 0x80004005 : Unspecified error"),
       Effect.newMessageReceiver (some 1) 0] ∧
    (connectTo readyGlobals getWindowFailsEnv
        [JsValue.string (lit "000A0B2C")]).globals.isMessageReceiverCreated = true := by
  decide

/-- C6 (as stated) fails: for a handle that does not resolve, `connectTo` returns null
and its only effect is the query itself; the log callback is not invoked. -/
theorem connectTo_stale_id_logs_nothing :
    staleEnv.getDocumentFromHwnd (decodeId staleEnv.ptrBits (lit "000A0B2C")) ≠ S_OK ∧
    (connectTo readyGlobals staleEnv [JsValue.string (lit "000A0B2C")]).ret = RetVal.null ∧
    (connectTo readyGlobals staleEnv [JsValue.string (lit "000A0B2C")]).effects =
      [Effect.getDocumentFromHwnd 0xA0B2C] ∧
    ((connectTo readyGlobals staleEnv [JsValue.string (lit "000A0B2C")]).effects.countP isLog
      = 0) := by
  decide

/-- C6 (as amended): for every id whose decoded handle does not resolve to a document,
`connectTo` returns null, leaves the globals as they are, constructs no receiver and never
invokes the log callback. -/
theorem connectTo_stale_id_silent (g : Globals) (env : Env) (id : AString)
    (rest : List JsValue)
    (hstale : env.getDocumentFromHwnd (decodeId env.ptrBits id) ≠ S_OK) :
    (connectTo g env (JsValue.string id :: rest)).ret = RetVal.null ∧
    (connectTo g env (JsValue.string id :: rest)).globals = g ∧
    (connectTo g env (JsValue.string id :: rest)).effects.countP isLog = 0 ∧
    receiversConstructed (connectTo g env (JsValue.string id :: rest)).effects = 0 := by
  simp only [connectTo, if_neg hstale, EnsureInitialized, receiversConstructed]
  cases g.isInitialized <;> simp [isLog, isReceiverConstruction, List.countP_cons]

/-- Witness of C6 (as amended): the id `000A0B2C` where no handle resolves. -/
theorem connectTo_stale_id_silent_witness :
    staleEnv.getDocumentFromHwnd (decodeId staleEnv.ptrBits (lit "000A0B2C")) ≠ S_OK ∧
    (connectTo readyGlobals staleEnv [JsValue.string (lit "000A0B2C")]).ret = RetVal.null :=
  ⟨by decide,
    (connectTo_stale_id_silent readyGlobals staleEnv (lit "000A0B2C") [] (by decide)).1⟩

/-! ## Script injection -/

theorem cstr_of_no_nul (s : List Nat) (h : 0 ∉ s) : cstr s = s := by
  induction s with
  | nil => rfl
  | cons c cs ih =>
    simp only [List.mem_cons, not_or] at h
    have hc : c ≠ 0 := fun e => h.1 e.symm
    simp [cstr, hc, ih h.2]

theorem utf8Value_of_ascii : ∀ (s : WString), (∀ u ∈ s, u < 128) → utf8Value s = s
  | [], _ => rfl
  | [u], h => by
    have hu : u < 128 := h u (by simp)
    simp [utf8Value, utf8Bytes, hu]
  | hi :: lo :: rest, h => by
    have hhi : hi < 128 := h hi (by simp)
    have hrest := utf8Value_of_ascii (lo :: rest) (fun u hu => h u (List.mem_cons_of_mem _ hu))
    have hpair : ¬ (0xD800 ≤ hi ∧ hi < 0xDC00 ∧ 0xDC00 ≤ lo ∧ lo < 0xE000) := by omega
    simp only [utf8Value, if_neg hpair, hrest, utf8Bytes, if_pos hhi, List.singleton_append]

theorem isAscii_append (a b : List Nat) : isAscii (a ++ b) = (isAscii a && isAscii b) := by
  simp [isAscii, List.all_append]

theorem isAscii_of_forall (s : List Nat) (h : ∀ u ∈ s, u < 128) : isAscii s = true := by
  simpa [isAscii] using h

theorem toWide_of_ascii (env : Env) (s : AString) (h : isAscii s = true) :
    env.toWide s = s := by
  simp [Env.toWide, h]

/-- For strings of ASCII characters other than NUL, the text `injectScriptTo` hands to
`SendMessageToInstance` is the text of the specification. -/
theorem toWide_injectCommand (env : Env) (engine filename script : WString)
    (he : ∀ u ∈ engine, 0 < u ∧ u < 128) (hf : ∀ u ∈ filename, 0 < u ∧ u < 128)
    (hs : ∀ u ∈ script, 0 < u ∧ u < 128) :
    env.toWide (injectCommand (utf8Value engine) (utf8Value filename) (utf8Value script))
      = specInjectText engine filename script := by
  have hnul : ∀ (s : WString), (∀ u ∈ s, 0 < u ∧ u < 128) → 0 ∉ s := by
    intro s h h0
    exact absurd (h 0 h0).1 (by decide)
  have hasc : ∀ (s : WString), (∀ u ∈ s, 0 < u ∧ u < 128) → ∀ u ∈ s, u < 128 :=
    fun s h u hu => (h u hu).2
  have hlit1 : isAscii (lit "inject:") = true := by decide
  have hlit2 : isAscii (lit ":") = true := by decide
  simp only [injectCommand, utf8Value_of_ascii _ (hasc _ he), utf8Value_of_ascii _ (hasc _ hf),
    utf8Value_of_ascii _ (hasc _ hs), cstr_of_no_nul _ (hnul _ he), cstr_of_no_nul _ (hnul _ hf),
    cstr_of_no_nul _ (hnul _ hs)]
  apply toWide_of_ascii
  simp only [isAscii_append, hlit1, hlit2, isAscii_of_forall _ (hasc _ he),
    isAscii_of_forall _ (hasc _ hf), isAscii_of_forall _ (hasc _ hs), Bool.and_self]

/-- C7 (as stated) fails, in two ways, on a host with ANSI code page 1252. For the engine
string `a\0b` the `%s` of `Format` stops at the NUL, so the text sent is
`inject:a:f.js:1+1`. For the engine string `é` (U+00E9) the UTF-8 bytes `C3 A9` of
`String::Utf8Value` are read as two characters of the code page, so the text sent has the
two code units `C3 A9` where the string has the one unit `E9`. -/
theorem injectScriptTo_text_differs :
    (utf8Value [97, 0, 98] = [97, 0, 98] ∧
      (injectScriptTo readyGlobals sampleEnv
          [JsValue.string (lit "000A0B2C"), JsValue.string (utf8Value [97, 0, 98]),
           JsValue.string (utf8Value (lit "f.js")), JsValue.string (utf8Value (lit "1+1"))]).effects
        = SendMessageToInstance readyGlobals sampleEnv 0xA0B2C (lit "inject:a:f.js:1+1") ∧
      lit "inject:a:f.js:1+1" ≠ specInjectText [97, 0, 98] (lit "f.js") (lit "1+1") ∧
      (injectScriptTo readyGlobals sampleEnv
          [JsValue.string (lit "000A0B2C"), JsValue.string (utf8Value [97, 0, 98]),
           JsValue.string (utf8Value (lit "f.js")), JsValue.string (utf8Value (lit "1+1"))]).effects
        ≠ SendMessageToInstance readyGlobals sampleEnv 0xA0B2C
            (specInjectText [97, 0, 98] (lit "f.js") (lit "1+1"))) ∧
    (utf8Value [0xE9] = [0xC3, 0xA9] ∧
      (injectScriptTo readyGlobals sampleEnv
          [JsValue.string (lit "000A0B2C"), JsValue.string (utf8Value [0xE9]),
           JsValue.string (utf8Value (lit "f.js")), JsValue.string (utf8Value (lit "1+1"))]).effects
        = SendMessageToInstance readyGlobals sampleEnv 0xA0B2C
            (lit "inject:" ++ [0xC3, 0xA9] ++ lit ":f.js:1+1") ∧
      lit "inject:" ++ [0xC3, 0xA9] ++ lit ":f.js:1+1"
        ≠ specInjectText [0xE9] (lit "f.js") (lit "1+1") ∧
      (injectScriptTo readyGlobals sampleEnv
          [JsValue.string (lit "000A0B2C"), JsValue.string (utf8Value [0xE9]),
           JsValue.string (utf8Value (lit "f.js")), JsValue.string (utf8Value (lit "1+1"))]).effects
        ≠ SendMessageToInstance readyGlobals sampleEnv 0xA0B2C
            (specInjectText [0xE9] (lit "f.js") (lit "1+1"))) := by
  decide

/-- C7 (as amended): for engine, filename and script strings of ASCII characters other
than NUL, on every platform, an initialized `injectScriptTo` does exactly what one call of
`SendMessageToInstance` does, with the handle decoded from the id and with the message
text exactly `inject:<engine>:<filename>:<script>`, colons of the fields left as they are;
the globals stay as they are and nothing is returned. -/
theorem injectScriptTo_sends_inject_text (g : Globals) (env : Env) (id : AString)
    (engine filename script : WString) (rest : List JsValue)
    (hinit : g.isInitialized = true)
    (he : ∀ u ∈ engine, 0 < u ∧ u < 128) (hf : ∀ u ∈ filename, 0 < u ∧ u < 128)
    (hs : ∀ u ∈ script, 0 < u ∧ u < 128) :
    (injectScriptTo g env
        (JsValue.string id :: JsValue.string (utf8Value engine) ::
          JsValue.string (utf8Value filename) :: JsValue.string (utf8Value script) ::
          rest)).effects
      = SendMessageToInstance g env (decodeId env.ptrBits id)
          (specInjectText engine filename script) ∧
    (injectScriptTo g env
        (JsValue.string id :: JsValue.string (utf8Value engine) ::
          JsValue.string (utf8Value filename) :: JsValue.string (utf8Value script) ::
          rest)).globals = g ∧
    (injectScriptTo g env
        (JsValue.string id :: JsValue.string (utf8Value engine) ::
          JsValue.string (utf8Value filename) :: JsValue.string (utf8Value script) ::
          rest)).ret = RetVal.undefined := by
  have htext := toWide_injectCommand env engine filename script he hf hs
  simp only [injectScriptTo, EnsureInitialized, hinit, htext]
  simp

/-- The example of the specification, on every platform: an initialized
`injectScriptTo(id, "js", "f.js", "1+1")` sends the text `inject:js:f.js:1+1`. -/
theorem injectScriptTo_example (g : Globals) (env : Env) (id : AString)
    (hinit : g.isInitialized = true) :
    (injectScriptTo g env
        [JsValue.string id, JsValue.string (lit "js"), JsValue.string (lit "f.js"),
          JsValue.string (lit "1+1")]).effects
      = SendMessageToInstance g env (decodeId env.ptrBits id) (lit "inject:js:f.js:1+1") := by
  have htext := toWide_injectCommand env (lit "js") (lit "f.js") (lit "1+1") (by decide)
    (by decide) (by decide)
  have h1 : utf8Value (lit "js") = lit "js" := by decide
  have h2 : utf8Value (lit "f.js") = lit "f.js" := by decide
  have h3 : utf8Value (lit "1+1") = lit "1+1" := by decide
  have h4 : specInjectText (lit "js") (lit "f.js") (lit "1+1") = lit "inject:js:f.js:1+1" := by
    decide
  rw [h1, h2, h3, h4] at htext
  simp only [injectScriptTo, EnsureInitialized, hinit, htext]
  simp

/-- Witness of C7 (as amended): `("js", "f.js", "1+1")` gives `inject:js:f.js:1+1`, sent
once to the handle `0xA0B2C`. -/
theorem injectScriptTo_sends_inject_text_witness :
    readyGlobals.isInitialized = true ∧
    (∀ u ∈ lit "js", 0 < u ∧ u < 128) ∧ (∀ u ∈ lit "f.js", 0 < u ∧ u < 128) ∧
    (∀ u ∈ lit "1+1", 0 < u ∧ u < 128) ∧
    specInjectText (lit "js") (lit "f.js") (lit "1+1") = lit "inject:js:f.js:1+1" ∧
    (injectScriptTo readyGlobals sampleEnv
        [JsValue.string (lit "000A0B2C"), JsValue.string (utf8Value (lit "js")),
          JsValue.string (utf8Value (lit "f.js")),
          JsValue.string (utf8Value (lit "1+1"))]).effects
      = SendMessageToInstance readyGlobals sampleEnv (decodeId sampleEnv.ptrBits (lit "000A0B2C"))
          (specInjectText (lit "js") (lit "f.js") (lit "1+1")) :=
  ⟨by decide, by decide, by decide, by decide, by decide,
    (injectScriptTo_sends_inject_text readyGlobals sampleEnv (lit "000A0B2C") (lit "js")
      (lit "f.js") (lit "1+1") [] (by decide) (by decide) (by decide) (by decide)).1⟩

/-! ## Setup twice -/

/-- C9 (as stated) fails: when the first call returned false (`CoInitializeEx` failed),
the second call is not rejected; it runs the setup again and replaces the root path and
both callbacks. -/
theorem second_setup_after_failed_first :
    (initializeCall initialGlobals comFailsEnv
        [JsValue.string (lit "C:\\first"), JsValue.function 1, JsValue.function 2]).ret
      = RetVal.boolean false ∧
    (initializeCall
        (initializeCall initialGlobals comFailsEnv
          [JsValue.string (lit "C:\\first"), JsValue.function 1, JsValue.function 2]).globals
        sampleEnv
        [JsValue.string (lit "C:\\second"), JsValue.function 3, JsValue.function 4])
      = { globals :=
            { isInitialized := true, isMessageReceiverCreated := false,
              messageCallbackHandle := some 3, logCallbackHandle := some 4,
              m_rootPath := lit "C:\\second", m_proxyHwnd := 0 }
          ret := RetVal.boolean true
          effects := [Effect.coInitializeEx] } ∧
    (initializeCall initialGlobals comFailsEnv
        [JsValue.string (lit "C:\\first"), JsValue.function 1, JsValue.function 2]).globals.m_rootPath
      = lit "C:\\first" := by
  decide

/-- C9 (as amended): of two consecutive setup calls with well-formed arguments, when the
first did not return false, the second throws "Already initialized", returns nothing, has
no other effect and leaves all globals (root path, both callbacks, proxy window handle,
flags) as the first call left them. -/
theorem second_setup_rejected (g : Globals) (env1 env2 : Env)
    (path1 path2 : AString) (onMessage1 onLog1 onMessage2 onLog2 : Nat)
    (rest1 rest2 : List JsValue)
    (hfirst : (initializeCall g env1
        (JsValue.string path1 :: JsValue.function onMessage1 :: JsValue.function onLog1 :: rest1)).ret
      ≠ RetVal.boolean false) :
    initializeCall
        (initializeCall g env1
          (JsValue.string path1 :: JsValue.function onMessage1 :: JsValue.function onLog1 ::
            rest1)).globals
        env2
        (JsValue.string path2 :: JsValue.function onMessage2 :: JsValue.function onLog2 :: rest2)
      = { globals :=
            (initializeCall g env1
              (JsValue.string path1 :: JsValue.function onMessage1 ::
                JsValue.function onLog1 :: rest1)).globals
          ret := RetVal.undefined
          effects := [Effect.throwTypeError alreadyInitializedError] } := by
  by_cases hg : g.isInitialized = true
  · simp [initializeCall, hg]
  · have hg2 : g.isInitialized = false := by simpa using hg
    by_cases hok : (env1.coInitializeEx = S_OK ∨ env1.coInitializeEx = S_FALSE)
    · simp [initializeCall, hg2, hok]
    · exfalso
      apply hfirst
      simp [initializeCall, hg2, hok]
      tauto

/-- Witness of C9 (as amended): a successful setup followed by a second one. -/
theorem second_setup_rejected_witness :
    (initializeCall initialGlobals sampleEnv
        [JsValue.string (lit "C:\\first"), JsValue.function 1, JsValue.function 2]).ret
      ≠ RetVal.boolean false ∧
    initializeCall
        (initializeCall initialGlobals sampleEnv
          [JsValue.string (lit "C:\\first"), JsValue.function 1, JsValue.function 2]).globals
        sampleEnv
        [JsValue.string (lit "C:\\second"), JsValue.function 3, JsValue.function 4]
      = { globals :=
            (initializeCall initialGlobals sampleEnv
              [JsValue.string (lit "C:\\first"), JsValue.function 1,
                JsValue.function 2]).globals
          ret := RetVal.undefined
          effects := [Effect.throwTypeError alreadyInitializedError] } :=
  ⟨by decide,
    second_setup_rejected initialGlobals sampleEnv sampleEnv (lit "C:\\first")
      (lit "C:\\second") 1 2 3 4 [] [] (by decide)⟩

/-! ## The message frame -/

theorem wideBytes_length (s : WString) : (wideBytes s).length = 2 * s.length := by
  induction s with
  | nil => rfl
  | cons u us ih => simp [wideBytes, wcharBytes, ih]; omega

theorem writeAt_length (buf bytes : List Nat) (off : Nat)
    (h : off + bytes.length ≤ buf.length) : (writeAt buf off bytes).length = buf.length := by
  simp [writeAt]
  omega

theorem writeAt_take (buf bytes : List Nat) (off k : Nat) (hk : k ≤ off)
    (h : off ≤ buf.length) : (writeAt buf off bytes).take k = buf.take k := by
  unfold writeAt
  rw [List.append_assoc, List.take_append_of_le_length (by simp; omega)]
  rw [List.take_take]
  congr 1
  omega

theorem writeAt_drop (buf bytes : List Nat) (off : Nat)
    (h : off + bytes.length = buf.length) : (writeAt buf off bytes).drop off = bytes := by
  unfold writeAt
  have hlen : (buf.take off).length = off := by simp; omega
  rw [List.append_assoc, List.drop_append_of_le_length (by omega)]
  have h1 : (buf.take off).drop off = [] := List.drop_eq_nil_of_le (by omega)
  have h2 : buf.drop (off + bytes.length) = [] := List.drop_eq_nil_of_le (by omega)
  rw [h1, h2]
  simp

theorem readUint_uintBytes (v : Nat) (h : v < 2 ^ 32) : readUint (uintBytes v) = v := by
  simp only [readUint, uintBytes]
  omega

/-- C8: for a message text of `n` code units without a NUL, `SendMessageToInstance` logs
nothing and sends one `WM_COPYDATA` whose block has exactly `H + 2 * (n + 1)` bytes, `H`
being the size of the header; the offset field (the first four bytes) holds `H`, the bytes
from offset `H` on are the code units of the text in order followed by one NUL unit, and
`cbData` is the byte count modulo `2 ^ 32`. The hypotheses on sizes say that the header
holds its `UINT` field and has a size that fits one, that the text has a length a
`CString` can have, and that the frame fits into the address space. -/
theorem SendMessageToInstance_frame (g : Globals) (env : Env) (instanceHwnd : Nat)
    (message : WString)
    (hnul : 0 ∉ message)
    (hfield : 4 ≤ env.sizeofStringMessageData)
    (hsize : env.sizeofStringMessageData < 2 ^ 32)
    (hcch : message.length + 1 ≤ STRSAFE_MAX_CCH)
    (hfit : env.sizeofStringMessageData + 2 * (message.length + 1) < 2 ^ env.ptrBits) :
    SendMessageToInstance g env instanceHwnd message
      = [Effect.sendMessage instanceHwnd g.m_proxyHwnd (buildFrame env message).1] ∧
    (buildFrame env message).1.lpData.length
      = env.sizeofStringMessageData + 2 * (message.length + 1) ∧
    readUint ((buildFrame env message).1.lpData.take 4) = env.sizeofStringMessageData ∧
    (buildFrame env message).1.lpData.drop env.sizeofStringMessageData
      = wideBytes (message ++ [0]) ∧
    (buildFrame env message).1.cbData
      = (env.sizeofStringMessageData + 2 * (message.length + 1)) % 2 ^ 32 := by
  have hlen : wcslen message = message.length := by
    unfold wcslen
    rw [cstr_of_no_nul _ hnul]
  have hstr : (2 * (message.length + 1)) % 2 ^ env.ptrBits = 2 * (message.length + 1) :=
    Nat.mod_eq_of_lt (by omega)
  have hbuf : (env.sizeofStringMessageData + 2 * (message.length + 1)) % 2 ^ env.ptrBits
      = env.sizeofStringMessageData + 2 * (message.length + 1) := Nat.mod_eq_of_lt hfit
  have hoff : env.sizeofStringMessageData % 2 ^ 32 = env.sizeofStringMessageData :=
    Nat.mod_eq_of_lt hsize
  have hcopy : StringCbCopyEx (2 * (message.length + 1)) message
      = (S_OK, some (message ++ [0])) := by
    unfold StringCbCopyEx
    have hdiv : 2 * (message.length + 1) / 2 = message.length + 1 := by omega
    have h1 : ¬ (message.length + 1 = 0 ∨ STRSAFE_MAX_CCH < message.length + 1) := by omega
    simp only [hdiv, hlen, h1, if_false, cstr_of_no_nul _ hnul]
    simp
  have hwb : (wideBytes (message ++ [0])).length = 2 * (message.length + 1) := by
    rw [wideBytes_length]
    simp
  have hframe : (buildFrame env message).1.lpData
      = writeAt (writeAt ((List.range (env.sizeofStringMessageData
            + 2 * (message.length + 1))).map env.freshByte) 0
          (uintBytes env.sizeofStringMessageData))
          env.sizeofStringMessageData (wideBytes (message ++ [0])) := by
    simp only [buildFrame, hlen, hstr, hbuf, hoff, hcopy]
  have hhdr : (writeAt ((List.range (env.sizeofStringMessageData
            + 2 * (message.length + 1))).map env.freshByte) 0
          (uintBytes env.sizeofStringMessageData)).length
      = env.sizeofStringMessageData + 2 * (message.length + 1) := by
    rw [writeAt_length]
    · simp
    · simp [uintBytes]
      omega
  refine ⟨?_, ?_, ?_, ?_, ?_⟩
  · have hhr : (buildFrame env message).2 = S_OK := by
      simp only [buildFrame, hlen, hstr, hcopy]
    simp [SendMessageToInstance, EXIT_IF_NOT_S_OK, hhr, andThen, faulted]
  · rw [hframe, writeAt_length _ _ _ (by rw [hhdr, hwb]), hhdr]
  · rw [hframe, writeAt_take _ _ _ 4 hfield (by rw [hhdr]; omega)]
    have h4 : (writeAt ((List.range (env.sizeofStringMessageData
            + 2 * (message.length + 1))).map env.freshByte) 0
          (uintBytes env.sizeofStringMessageData)).take 4
        = uintBytes env.sizeofStringMessageData := by
      simp [writeAt, uintBytes]
    rw [h4, readUint_uintBytes _ hsize]
  · rw [hframe, writeAt_drop _ _ _ (by rw [hhdr, hwb])]
  · simp only [buildFrame, hlen, hstr, hbuf]

/-- Witness of C8: the text `hi` on the sample platform gives the ten bytes
`04 00 00 00 68 00 69 00 00 00`. -/
theorem SendMessageToInstance_frame_witness :
    0 ∉ lit "hi" ∧
    (buildFrame sampleEnv (lit "hi")).1.lpData = [4, 0, 0, 0, 104, 0, 105, 0, 0, 0] ∧
    (buildFrame sampleEnv (lit "hi")).1.lpData.length
      = sampleEnv.sizeofStringMessageData + 2 * ((lit "hi").length + 1) :=
  ⟨by decide, by decide,
    (SendMessageToInstance_frame readyGlobals sampleEnv 0xA0B2C (lit "hi") (by decide)
      (by decide) (by decide) (by decide) (by decide)).2.1⟩

/-! ## The receiver is constructed once -/

theorem receiversConstructed_append (a b : List Effect) :
    receiversConstructed (a ++ b) = receiversConstructed a + receiversConstructed b := by
  simp [receiversConstructed, List.countP_append]

theorem faulted_append (a b : List Effect) : faulted (a ++ b) = (faulted a || faulted b) := by
  simp [faulted, List.any_append]

theorem receiversConstructed_EnsureInitialized (g : Globals) :
    receiversConstructed (EnsureInitialized g) = 0 := by
  unfold EnsureInitialized
  cases g.isInitialized <;> simp [receiversConstructed, isReceiverConstruction]

theorem faulted_EnsureInitialized (g : Globals) : faulted (EnsureInitialized g) = false := by
  unfold EnsureInitialized
  cases g.isInitialized <;> simp [faulted, isFault]

theorem receiversConstructed_Log (g : Globals) (m : AString) :
    receiversConstructed (Log g m) = 0 := by
  unfold Log
  split <;> simp [receiversConstructed, isReceiverConstruction]

theorem receiversConstructed_EXIT_IF_NOT_S_OK (g : Globals) (env : Env) (hr : HRESULT) :
    receiversConstructed (EXIT_IF_NOT_S_OK g env hr) = 0 := by
  unfold EXIT_IF_NOT_S_OK
  split
  · exact receiversConstructed_Log g _
  · simp [receiversConstructed]

theorem receiversConstructed_andThen (a b : List Effect) (ha : receiversConstructed a = 0)
    (hb : receiversConstructed b = 0) : receiversConstructed (andThen a b) = 0 := by
  unfold andThen
  split
  · exact ha
  · rw [receiversConstructed_append, ha, hb]

theorem receiversConstructed_SendMessageToInstance (g : Globals) (env : Env) (h : Nat)
    (m : WString) : receiversConstructed (SendMessageToInstance g env h m) = 0 := by
  unfold SendMessageToInstance
  exact receiversConstructed_andThen _ _ (receiversConstructed_EXIT_IF_NOT_S_OK g env _)
    (by simp [receiversConstructed, isReceiverConstruction])

theorem receiversConstructed_visitWindow (env : Env) (w : Window) :
    receiversConstructed (visitWindow env w).2 = 0 := by
  unfold visitWindow
  simp only
  split_ifs <;> simp [receiversConstructed, isReceiverConstruction]

theorem receiversConstructed_visits (env : Env) (ws : List Window) :
    receiversConstructed ((ws.map (visitWindow env)).map (fun v => v.2)).flatten = 0 := by
  induction ws with
  | nil => simp [receiversConstructed]
  | cons w ws ih =>
    simp only [List.map_cons, List.flatten_cons, receiversConstructed_append, ih,
      receiversConstructed_visitWindow]

theorem initializeCall_receiver (g : Globals) (env : Env) (info : List JsValue) :
    (initializeCall g env info).globals.isMessageReceiverCreated = g.isMessageReceiverCreated ∧
    receiversConstructed (initializeCall g env info).effects = 0 := by
  unfold initializeCall
  split
  · simp [receiversConstructed, isReceiverConstruction]
  · split <;> simp [receiversConstructed, isReceiverConstruction]

theorem getEdgeInstances_receiver (g : Globals) (env : Env) (info : List JsValue) :
    (getEdgeInstances g env info).globals = g ∧
    receiversConstructed (getEdgeInstances g env info).effects = 0 := by
  unfold getEdgeInstances
  simp only
  split
  · simp only [receiversConstructed_append, receiversConstructed_EnsureInitialized]
    simp [receiversConstructed, isReceiverConstruction]
  · simp only [receiversConstructed_append, receiversConstructed_EnsureInitialized,
      receiversConstructed_visits]
    simp [receiversConstructed, isReceiverConstruction]

theorem setSecurityACLs_receiver (g : Globals) (env : Env) (info : List JsValue) :
    (setSecurityACLs g env info).globals = g ∧
    receiversConstructed (setSecurityACLs g env info).effects = 0 := by
  have hlog := receiversConstructed_Log g
  have hthen : ∀ a b, receiversConstructed (andThen (Log g a) (Log g b)) = 0 :=
    fun a b => receiversConstructed_andThen _ _ (hlog a) (hlog b)
  unfold setSecurityACLs
  simp only
  split
  · split_ifs <;>
      simp only [receiversConstructed_append, receiversConstructed_EnsureInitialized, hlog,
        hthen] <;>
      simp [receiversConstructed, isReceiverConstruction]
  · simp only [receiversConstructed_append, receiversConstructed_EnsureInitialized]
    simp [receiversConstructed, isReceiverConstruction]

theorem injectScriptTo_receiver (g : Globals) (env : Env) (info : List JsValue) :
    (injectScriptTo g env info).globals = g ∧
    receiversConstructed (injectScriptTo g env info).effects = 0 := by
  unfold injectScriptTo
  simp only
  split
  · simp [receiversConstructed_append, receiversConstructed_EnsureInitialized,
      receiversConstructed_SendMessageToInstance]
  · simp [receiversConstructed_append, receiversConstructed_EnsureInitialized]
    simp [receiversConstructed, isReceiverConstruction]

theorem forwardTo_receiver (g : Globals) (env : Env) (info : List JsValue) :
    (forwardTo g env info).globals = g ∧
    receiversConstructed (forwardTo g env info).effects = 0 := by
  unfold forwardTo
  simp only
  split
  · simp [receiversConstructed_append, receiversConstructed_EnsureInitialized,
      receiversConstructed_SendMessageToInstance]
  · simp [receiversConstructed_append, receiversConstructed_EnsureInitialized]
    simp [receiversConstructed, isReceiverConstruction]

/-- A `connectTo` that does not reach the success branch changes no global and constructs
no receiver. -/
theorem connectTo_receiver_none (g : Globals) (env : Env) (info : List JsValue)
    (h : connectToReachesSuccess g env info = false) :
    (connectTo g env info).globals = g ∧
    receiversConstructed (connectTo g env info).effects = 0 := by
  have hlog := receiversConstructed_Log g
  unfold connectToReachesSuccess at h
  unfold connectTo
  simp only
  split
  · rename_i id rest
    simp only [Bool.and_eq_false_iff, decide_eq_false_iff_not] at h
    by_cases hdoc : env.getDocumentFromHwnd (decodeId env.ptrBits id) = S_OK
    · have hstart : ¬ env.startDiagnosticsMode (decodeId env.ptrBits id)
          (proxyPath g (is64BitTab env)) = S_OK := by
        rcases h with h | h
        · exact absurd hdoc h
        · exact h
      simp only [if_pos hdoc]
      split_ifs <;>
        simp only [receiversConstructed_append, receiversConstructed_EnsureInitialized,
          receiversConstructed_EXIT_IF_NOT_S_OK, hlog] <;>
        simp [receiversConstructed, isReceiverConstruction]
    · simp only [if_neg hdoc]
      simp [receiversConstructed_append, receiversConstructed_EnsureInitialized]
      simp [receiversConstructed, isReceiverConstruction]
  · simp [receiversConstructed_append, receiversConstructed_EnsureInitialized]
    simp [receiversConstructed, isReceiverConstruction]

/-- A `connectTo` that reaches the success branch: unless the process is ended by the
`Log` of a failed `GetWindow`, an id is returned, the flag is set and a receiver is
constructed if none has been; if the process is ended there, nothing of this happens. -/
theorem connectTo_receiver_success (g : Globals) (env : Env) (info : List JsValue)
    (h : connectToReachesSuccess g env info = true) :
    (faulted (connectTo g env info).effects = false →
      (connectTo g env info).globals.isMessageReceiverCreated = true ∧
      receiversConstructed (connectTo g env info).effects
        = (if g.isMessageReceiverCreated then 0 else 1) ∧
      (connectTo g env info).ret ≠ RetVal.null) ∧
    (faulted (connectTo g env info).effects = true →
      (connectTo g env info).globals = g ∧
      receiversConstructed (connectTo g env info).effects = 0) := by
  unfold connectToReachesSuccess at h
  unfold connectTo
  simp only
  split
  · rename_i id rest
    simp only [Bool.and_eq_true, decide_eq_true_eq] at h
    obtain ⟨hdoc, hstart⟩ := h
    have h1 : ¬ (S_OK = E_ACCESSDENIED) := by decide
    have h2 : ¬ (S_OK = HRESULT_MOD_NOT_FOUND) := by decide
    simp only [if_pos hdoc, hstart, h1, h2, false_and, if_false, ne_eq, not_true_eq_false]
    cases hf : faulted (EXIT_IF_NOT_S_OK g env env.getWindow.1) <;>
      cases hcreated : g.isMessageReceiverCreated <;>
      simp only [Bool.not_false, Bool.not_true, if_true, if_false, Bool.false_eq_true,
        receiversConstructed_append, receiversConstructed_EnsureInitialized,
        receiversConstructed_EXIT_IF_NOT_S_OK, faulted_append, faulted_EnsureInitialized,
        hf] <;>
      simp [receiversConstructed, isReceiverConstruction, faulted, isFault, hcreated]
  · simp at h

theorem beforeCall_created (g : Globals) (c : Call) :
    (beforeCall g c).isMessageReceiverCreated = g.isMessageReceiverCreated := by
  unfold beforeCall
  split
  · split <;> rfl
  · rfl

/-- One call: a receiver is constructed exactly when the call is a `connectTo` that
reaches the success branch while the flag is still false and is not ended there; the flag
is true afterwards exactly when it was true before or such a call has been made. -/
theorem invoke_receiver (g : Globals) (c : Call) :
    receiversConstructed (invoke g c).effects
      = (if reachesSuccessBranch g c = true ∧ g.isMessageReceiverCreated = false ∧
            faulted (invoke g c).effects = false then 1 else 0) ∧
    (invoke g c).globals.isMessageReceiverCreated
      = (g.isMessageReceiverCreated ||
          (reachesSuccessBranch g c && !faulted (invoke g c).effects)) := by
  have hb := beforeCall_created g c
  unfold invoke reachesSuccessBranch
  cases hm : c.method <;> simp only
  · have h := initializeCall_receiver (beforeCall g c) c.env c.info
    simp [h.1, h.2, hb]
  · have h := getEdgeInstances_receiver (beforeCall g c) c.env c.info
    simp [h.1, h.2, hb]
  · have h := setSecurityACLs_receiver (beforeCall g c) c.env c.info
    simp [h.1, h.2, hb]
  · cases hr : connectToReachesSuccess (beforeCall g c) c.env c.info
    · have h := connectTo_receiver_none (beforeCall g c) c.env c.info hr
      simp [h.1, h.2, hb]
    · have h := connectTo_receiver_success (beforeCall g c) c.env c.info hr
      rw [hb] at h
      cases hf : faulted (connectTo (beforeCall g c) c.env c.info).effects
      · have h' := h.1 hf
        cases hc : g.isMessageReceiverCreated <;> simp [h'.1, h'.2.1, hc]
      · have h' := h.2 hf
        simp [h'.1, h'.2, hb]
  · have h := injectScriptTo_receiver (beforeCall g c) c.env c.info
    simp [h.1, h.2, hb]
  · have h := forwardTo_receiver (beforeCall g c) c.env c.info
    simp [h.1, h.2, hb]

theorem runCalls_cons_of_not_faulted (g : Globals) (c : Call) (cs : List Call)
    (h : faulted (invoke g c).effects = false) :
    runCalls g (c :: cs)
      = ((runCalls (invoke g c).globals cs).1,
          (invoke g c).effects ++ (runCalls (invoke g c).globals cs).2) := by
  simp [runCalls, h]

theorem runCalls_cons_of_faulted (g : Globals) (c : Call) (cs : List Call)
    (h : faulted (invoke g c).effects = true) :
    runCalls g (c :: cs) = ((invoke g c).globals, (invoke g c).effects) := by
  simp [runCalls, h]

theorem runCalls_append (g : Globals) (a b : List Call)
    (h : faulted (runCalls g a).2 = false) :
    runCalls g (a ++ b)
      = ((runCalls (runCalls g a).1 b).1, (runCalls g a).2 ++ (runCalls (runCalls g a).1 b).2) := by
  induction a generalizing g with
  | nil => simp [runCalls]
  | cons c cs ih =>
    cases hf : faulted (invoke g c).effects
    · rw [runCalls_cons_of_not_faulted g c cs hf] at h ⊢
      simp only [faulted_append, hf, Bool.false_or] at h
      rw [List.cons_append, runCalls_cons_of_not_faulted g c (cs ++ b) hf, ih _ h]
      simp [List.append_assoc]
    · rw [runCalls_cons_of_faulted g c cs hf] at h
      simp only at h
      rw [hf] at h
      exact absurd h (by decide)

theorem runCalls_created (g : Globals) (cs : List Call)
    (h : g.isMessageReceiverCreated = true) :
    (runCalls g cs).1.isMessageReceiverCreated = true ∧
    receiversConstructed (runCalls g cs).2 = 0 := by
  induction cs generalizing g with
  | nil => simp [runCalls, h, receiversConstructed]
  | cons c cs ih =>
    have hi := invoke_receiver g c
    have hnext : (invoke g c).globals.isMessageReceiverCreated = true := by
      rw [hi.2, h]
      rfl
    have hcount : receiversConstructed (invoke g c).effects = 0 := by
      rw [hi.1, h]
      simp
    have hrest := ih (invoke g c).globals hnext
    cases hf : faulted (invoke g c).effects
    · rw [runCalls_cons_of_not_faulted g c cs hf]
      simp only [receiversConstructed_append, hrest.1, hrest.2, hcount]
      simp
    · rw [runCalls_cons_of_faulted g c cs hf]
      exact ⟨hnext, hcount⟩

theorem runCalls_none (g : Globals) (cs : List Call)
    (h : g.isMessageReceiverCreated = false) (hnone : noneReachesSuccess g cs = true) :
    (runCalls g cs).1.isMessageReceiverCreated = false ∧
    receiversConstructed (runCalls g cs).2 = 0 := by
  induction cs generalizing g with
  | nil => simp [runCalls, h, receiversConstructed]
  | cons c cs ih =>
    simp only [noneReachesSuccess, Bool.and_eq_true, Bool.not_eq_true'] at hnone
    have hi := invoke_receiver g c
    have hnext : (invoke g c).globals.isMessageReceiverCreated = false := by
      rw [hi.2, h, hnone.1]
      rfl
    have hcount : receiversConstructed (invoke g c).effects = 0 := by
      rw [hi.1, hnone.1]
      simp
    have hrest := ih (invoke g c).globals hnext hnone.2
    cases hf : faulted (invoke g c).effects
    · rw [runCalls_cons_of_not_faulted g c cs hf]
      simp only [receiversConstructed_append, hrest.1, hrest.2, hcount]
      simp
    · rw [runCalls_cons_of_faulted g c cs hf]
      exact ⟨hnext, hcount⟩

theorem runCalls_at_most_one (g : Globals) (cs : List Call) :
    receiversConstructed (runCalls g cs).2
      + (if g.isMessageReceiverCreated then 1 else 0) ≤ 1 ∧
    ((runCalls g cs).1.isMessageReceiverCreated = true ↔
      receiversConstructed (runCalls g cs).2
        + (if g.isMessageReceiverCreated then 1 else 0) = 1) := by
  induction cs generalizing g with
  | nil => cases hg : g.isMessageReceiverCreated <;> simp [runCalls, receiversConstructed, hg]
  | cons c cs ih =>
    have hi := invoke_receiver g c
    have hrest := ih (invoke g c).globals
    have hcount := hi.1
    have hflag := hi.2
    cases hf : faulted (invoke g c).effects
    · rw [runCalls_cons_of_not_faulted g c cs hf]
      simp only [receiversConstructed_append]
      rw [hflag] at hrest
      cases hg : g.isMessageReceiverCreated <;> cases hr : reachesSuccessBranch g c <;>
        rw [hg, hr, hf] at hrest hcount <;> simp at hrest hcount <;> rw [hcount] <;>
        simpa using hrest
    · rw [runCalls_cons_of_faulted g c cs hf]
      simp only
      rw [hflag]
      cases hg : g.isMessageReceiverCreated <;> cases hr : reachesSuccessBranch g c <;>
        rw [hg, hr, hf] at hcount <;> simp at hcount <;> rw [hcount] <;> simp [hf]

/-- Over every sequence of calls from the initial state at most one `MessageReceiver` is
constructed, and the flag `isMessageReceiverCreated` is true at the end exactly when one
has been. -/
theorem receiver_at_most_once (calls : List Call) :
    receiversConstructed (runCalls initialGlobals calls).2 ≤ 1 ∧
    ((runCalls initialGlobals calls).1.isMessageReceiverCreated = true ↔
      receiversConstructed (runCalls initialGlobals calls).2 = 1) := by
  have hinit : initialGlobals.isMessageReceiverCreated = false := rfl
  have hall := runCalls_at_most_one initialGlobals calls
  rw [hinit] at hall
  exact ⟨by simpa using hall.1, by simpa using hall.2⟩

/-- The first `connectTo` of a sequence that reaches the success branch, when the calls
up to and including it do not end the process: the flag is false and no receiver exists
before it, the call constructs exactly one receiver, the flag is true after it and after
every later call, and the later calls construct none. -/
theorem receiver_constructed_by_first_success (before after : List Call) (c : Call)
    (hnone : noneReachesSuccess initialGlobals before = true)
    (hrun : faulted (runCalls initialGlobals before).2 = false)
    (hreach : reachesSuccessBranch (runCalls initialGlobals before).1 c = true)
    (hdone : faulted (invoke (runCalls initialGlobals before).1 c).effects = false) :
    (runCalls initialGlobals before).1.isMessageReceiverCreated = false ∧
    receiversConstructed (runCalls initialGlobals before).2 = 0 ∧
    receiversConstructed (invoke (runCalls initialGlobals before).1 c).effects = 1 ∧
    (∀ later : List Call,
      (runCalls initialGlobals (before ++ c :: later)).1.isMessageReceiverCreated = true) ∧
    receiversConstructed
      (runCalls (invoke (runCalls initialGlobals before).1 c).globals after).2 = 0 := by
  have hinit : initialGlobals.isMessageReceiverCreated = false := rfl
  have hbefore := runCalls_none initialGlobals before hinit hnone
  have hcall := invoke_receiver (runCalls initialGlobals before).1 c
  rw [hbefore.1, hreach, hdone] at hcall
  have hflag : (invoke (runCalls initialGlobals before).1 c).globals.isMessageReceiverCreated
      = true := by
    rw [hcall.2]
    rfl
  refine ⟨hbefore.1, hbefore.2, by simpa using hcall.1, ?_, ?_⟩
  · intro later
    rw [runCalls_append _ _ _ hrun, runCalls_cons_of_not_faulted _ _ _ hdone]
    exact (runCalls_created _ later hflag).1
  · exact (runCalls_created _ after hflag).2

/-- Setup, `connectTo`, `injectScriptTo`, `connectTo` again on the sample platform: the
first `connectTo` constructs the receiver and the later calls construct none. -/
theorem receiver_constructed_by_first_success_sample :
    receiversConstructed
        (invoke (runCalls initialGlobals [sampleSetupCall]).1 sampleConnectCall).effects = 1 ∧
    receiversConstructed
      (runCalls (invoke (runCalls initialGlobals [sampleSetupCall]).1 sampleConnectCall).globals
        [sampleInjectCall, sampleConnectCall]).2 = 0 :=
  ⟨(receiver_constructed_by_first_success [sampleSetupCall]
      [sampleInjectCall, sampleConnectCall] sampleConnectCall (by decide) (by decide)
      (by decide) (by decide)).2.2.1,
    (receiver_constructed_by_first_success [sampleSetupCall]
      [sampleInjectCall, sampleConnectCall] sampleConnectCall (by decide) (by decide)
      (by decide) (by decide)).2.2.2.2⟩

/-- C10: from the initial state, `connectTo("000A0B2C")` is called before any setup, the
document is resolved, `StartDiagnosticsMode` returns `S_OK` and `GetWindow` fails. The call
is the first `connectTo` that reaches the success branch; `EXIT_IF_NOT_S_OK` calls `Log`
while `logCallbackHandle` is empty, which ends the process before the receiver is
constructed: no receiver is constructed during the call, the flag stays false, and no
later call is performed. -/
theorem first_connectTo_ends_before_receiver :
    reachesSuccessBranch initialGlobals earlyConnectCall = true ∧
    (invoke initialGlobals earlyConnectCall).effects =
      [Effect.throwTypeError notInitializedError,
       Effect.getDocumentFromHwnd 0xA0B2C,
       Effect.startDiagnosticsMode 0xA0B2C (lit "\\..\\..\\lib\\Proxy64.dll"),
       Effect.getWindow,
       Effect.fault] ∧
    receiversConstructed (invoke initialGlobals earlyConnectCall).effects = 0 ∧
    (invoke initialGlobals earlyConnectCall).globals.isMessageReceiverCreated = false ∧
    runCalls initialGlobals [earlyConnectCall, sampleSetupCall, sampleConnectCall]
      = (initialGlobals, (invoke initialGlobals earlyConnectCall).effects) := by
  decide

end EdgeAdapter
